import Mathlib

/-!
Shallow embedding of the uMail SMTP client (src/umailesp.py and
src/umailesp32.py).  The network socket is modelled as a scripted stream:
for umailesp.py (which reads whole lines) the incoming side is a list of
raw lines, for umailesp32.py (which reads raw bytes) it is a list of
characters.  Everything written to the socket is recorded in an output
trace tagged with the `secured` flag of the stream at the time of the
write, so that the STARTTLS upgrade is observable.  Exceptions are
modelled with `Except` over an error type whose constructors carry the
data interpolated into the corresponding Python message.
-/

namespace Umail

/-- CRLF line terminator. -/
def crlf : String := "\r\n"

/-- Is the character CR or LF (the strip set of `rstrip('\r\n')`). -/
def isCRLFChar (c : Char) : Bool := c == '\r' || c == '\n'

/-- Python `s.rstrip('\r\n')`: remove every trailing CR/LF character. -/
def rstripCRLF (s : String) : String :=
  ⟨(s.data.reverse.dropWhile isCRLFChar).reverse⟩

/-- Is the character in the strip set of `lstrip('- ')`. -/
def isDashSpace (c : Char) : Bool := c == '-' || c == ' '

/-- Python `s.lstrip('- ')`: remove every leading dash or space. -/
def lstripDashSpace (s : String) : String := ⟨s.data.dropWhile isDashSpace⟩

/-- ASCII whitespace, the strip set of Python `str.strip()`. -/
def isPyWs (c : Char) : Bool :=
  c == ' ' || c == '\t' || c == '\n' || c == '\r' || c == '\x0b' || c == '\x0c'

/-- Python `s.strip()`: ASCII whitespace removed from both ends. -/
def pyStripStr (s : String) : String :=
  ⟨((s.data.dropWhile isPyWs).reverse.dropWhile isPyWs).reverse⟩

/-- Python `s.strip('=')`. -/
def stripEq (s : String) : String :=
  ⟨((s.data.dropWhile (· == '=')).reverse.dropWhile (· == '=')).reverse⟩

/-- Python slicing `s[:n]` (code points). -/
def pyTake (s : String) (n : Nat) : String := ⟨s.data.take n⟩

/-- Python slicing `s[n:]`. -/
def pyDrop (s : String) (n : Nat) : String := ⟨s.data.drop n⟩

/-- Python slicing `s[:-1]`. -/
def pyDropLast (s : String) : String := ⟨s.data.dropLast⟩

/-- Python `len(s)`. -/
def pyLen (s : String) : Nat := s.data.length

/-- Python `s[i]`, as an option. -/
def pyGet? (s : String) (i : Nat) : Option Char := s.data.get? i

/-- Value of a nonempty all-digit character list, else `none`. -/
def digitsVal? (l : List Char) : Option Nat :=
  if l ≠ [] ∧ l.all Char.isDigit then
    some (l.foldl (fun a c => a * 10 + (c.toNat - 48)) 0)
  else none

/-- Python `int(s)` on a decimal string: optional surrounding whitespace,
optional sign, then digits; `none` models the `ValueError`.  Digit-grouping
underscores are not modelled (no three-character SMTP code contains one in
any behaviour the claims mention). -/
def pyInt? (s : String) : Option Int :=
  match (pyStripStr s).data with
  | '-' :: rest => (digitsVal? rest).map (fun n => -(n : Int))
  | '+' :: rest => (digitsVal? rest).map (fun n => (n : Int))
  | l => (digitsVal? l).map (fun n => (n : Int))

/-- Helper of `pySplitWs`: accumulate the current word (reversed). -/
def wsSplitAux : List Char → List Char → List (List Char)
  | [], acc => if acc = [] then [] else [acc.reverse]
  | c :: rest, acc =>
    if isPyWs c then
      (if acc = [] then wsSplitAux rest [] else acc.reverse :: wsSplitAux rest [])
    else wsSplitAux rest (c :: acc)

/-- Python `s.split()`: split on whitespace runs, discarding empties. -/
def pySplitWs (s : String) : List String :=
  (wsSplitAux s.data []).map (fun l => ⟨l⟩)

/-- Python `s.upper()` (ASCII). -/
def pyUpper (s : String) : String := ⟨s.data.map Char.toUpper⟩

/-- Python `sep.join(l)`. -/
def joinSep (sep : String) : List String → String
  | [] => ""
  | [a] => a
  | a :: rest => a ++ sep ++ joinSep sep rest

/-- Python `repr` of a string (quote-escaping inside the string is not
modelled; no claim exercises it). -/
def pyReprStr (s : String) : String := "\x27" ++ s ++ "\x27"

/-- Python `repr` of a list of strings, as interpolated by f-strings. -/
def pyReprList (l : List String) : String :=
  "[" ++ joinSep ", " (l.map pyReprStr) ++ "]"

/-- Python truthiness of an optional string (`None` and `''` are falsy). -/
def pyTruthy : Option String → Bool
  | none => false
  | some s => !(s == "")

/-- Python f-string interpolation of an optional string (`None` prints as
the word `None`). -/
def optStr : Option String → String
  | none => "None"
  | some s => s

/-- The exceptions raised by the client.  Each constructor carries exactly
the data interpolated into the corresponding Python message; `errMsg`
renders the message text. -/
inductive SmtpErr where
  | noResponse (cmdStr : String)
  | invalidLine (cmdStr : String) (line : String)
  | invalidCode (cmdStr : String) (codeStr : String)
  | noSmtpResponse
  | noGreeting
  | pyValueError (s : String)
  | connectFailed (code : Int)
  | ehloFailed (code : Int) (resp : List String)
  | starttlsFailed (code : Int) (resp : List String)
  | ehloAgainFailed (code : Int) (resp : List String)
  | noAuthMethods
  | unsupportedAuth (auths : List String)
  | promptFailed (code : Int) (resp : List String)
  | usernameFailed (code : Int) (resp : List String)
  | authFailed (code : Int) (resp : List String)
  | senderRefused (code : Int) (resp : List String)
  | allRefused (code : Int) (resp : List String)
  | dataRefused (code : Int) (resp : List String)
  | noSendResponse
deriving DecidableEq

/-- The Python message of each exception (the `ValueError` text follows
CPython; quote-escaping inside `repr` is not modelled). -/
def errMsg : SmtpErr → String
  | .noResponse cmdStr =>
      "No response from server for " ++ pyReprStr cmdStr ++ " (connection closed?)."
  | .invalidLine cmdStr line =>
      "Invalid SMTP response line for " ++ pyReprStr cmdStr ++ ": " ++ line
  | .invalidCode cmdStr codeStr =>
      "Invalid SMTP response code for " ++ pyReprStr cmdStr ++ ": " ++ pyReprStr codeStr
  | .noSmtpResponse => "No SMTP response"
  | .noGreeting => "No initial greeting received from server"
  | .pyValueError s => "invalid literal for int() with base 10: " ++ pyReprStr s
  | .connectFailed code => "SMTP connect failed: " ++ toString code
  | .ehloFailed code resp => "EHLO failed: " ++ toString code ++ ", " ++ pyReprList resp
  | .starttlsFailed code resp => "STARTTLS failed: " ++ toString code ++ ", " ++ pyReprList resp
  | .ehloAgainFailed code resp =>
      "EHLO after STARTTLS failed: " ++ toString code ++ ", " ++ pyReprList resp
  | .noAuthMethods => "No auth methods available"
  | .unsupportedAuth auths => "Auth methods not supported: " ++ joinSep ", " auths
  | .promptFailed code resp =>
      "Username prompt failed: " ++ toString code ++ ", " ++ pyReprList resp
  | .usernameFailed code resp => "Username failed: " ++ toString code ++ ", " ++ pyReprList resp
  | .authFailed code resp => "Auth failed: " ++ toString code ++ ", " ++ pyReprList resp
  | .senderRefused code resp => "Sender refused: " ++ toString code ++ ", " ++ pyReprList resp
  | .allRefused code resp =>
      "All recipients refused: " ++ toString code ++ ", " ++ pyReprList resp
  | .dataRefused code resp => "Data refused: " ++ toString code ++ ", " ++ pyReprList resp
  | .noSendResponse => "No SMTP send response"

/-- Session state for umailesp.py: the incoming side of the socket as the
list of raw lines `readline` will deliver, the outgoing trace (each write
tagged with whether the stream was secured at that moment), the secured
flag, and how many times the stream has been closed. -/
structure Conn where
  inp : List String
  out : List (Bool × String)
  secured : Bool
  closed : Nat
deriving DecidableEq

/-- Reply-reading loop of `SMTP.cmd` (umailesp.py lines 89-113): read a
line, require length at least 3, parse the code from the first three
characters, strip the leading `'- '` characters from the rest, and stop
unless character 3 is the continuation marker.  Returns the remaining
input together with the outcome; errors also report the input consumed so
far, since a raised exception leaves the socket partially read. -/
def readReply (cmdStr : String) : List String → List String × Except SmtpErr (Int × List String)
  | [] => ([], .error (.noResponse cmdStr))
  | l :: rest =>
    let s := rstripCRLF l
    if pyLen s < 3 then (rest, .error (.invalidLine cmdStr s))
    else
      match pyInt? (pyTake s 3) with
      | none => (rest, .error (.invalidCode cmdStr (pyTake s 3)))
      | some code =>
        let text := lstripDashSpace (pyDrop s 3)
        if pyLen s < 4 || !(pyGet? s 3 == some '-') then (rest, .ok (code, [text]))
        else
          match readReply cmdStr rest with
          | (rem, .error e) => (rem, .error e)
          | (rem, .ok (code2, lines)) => (rem, .ok (code2, text :: lines))

/-- `SMTP.cmd` of umailesp.py: write the command plus CRLF, then parse the
reply with `readReply`. -/
def cmdM (cmdStr : String) (c : Conn) : Conn × Except SmtpErr (Int × List String) :=
  let c1 : Conn := { c with out := c.out ++ [(c.secured, cmdStr ++ crlf)] }
  match readReply cmdStr c1.inp with
  | (rem, r) => ({ c1 with inp := rem }, r)

/-- The `EHLO` command sent by the client (`CMD_EHLO + ' ' + LOCAL_DOMAIN`). -/
def ehloStr : String := "EHLO 127.0.0.1"

/-- Feature scan of `SMTP.login`: the last feature whose first four
characters upper-case to `AUTH` yields the mechanism list
(`feature[4:].strip('=').upper().split()`). -/
def scanAuths (resp : List String) : Option (List String) :=
  resp.foldl
    (fun acc feature =>
      if pyUpper (pyTake feature 4) == "AUTH" then
        some (pySplitWs (pyUpper (stripEq (pyDrop feature 4))))
      else acc)
    none

/-- Final status check of `SMTP.login`: 235 or 503 succeed, anything else
is an auth failure. -/
def authFinal {σ : Type} : σ × Except SmtpErr (Int × List String) → σ × Except SmtpErr (Int × List String)
  | (c, .error e) => (c, .error e)
  | (c, .ok (code, resp)) =>
    if code = 235 ∨ code = 503 then (c, .ok (code, resp))
    else (c, .error (.authFailed code resp))

/-- The credential blob of AUTH PLAIN in umailesp.py:
`b64("\0" + username + "\0" + password).decode().strip()`.  The base64
collaborator `b64` is a parameter (external per the design), modelled as
returning the textual encoding including the trailing newline that
`b2a_base64` appends. -/
def authPlainCred (username password : String) (b64 : String → String) : String :=
  pyStripStr (b64 ("\x00" ++ username ++ "\x00" ++ password))

/-- PLAIN branch of umailesp.py `SMTP.login`. -/
def plainBranch (username password : String) (b64 : String → String) (c : Conn) :
    Conn × Except SmtpErr (Int × List String) :=
  authFinal (cmdM ("AUTH PLAIN " ++ authPlainCred username password b64) c)

/-- LOGIN branch of umailesp.py `SMTP.login`: `AUTH LOGIN`, then the
base64 username, then the base64 password, requiring 334 after the first
two steps. -/
def loginBranch (username password : String) (b64 : String → String) (c : Conn) :
    Conn × Except SmtpErr (Int × List String) :=
  match cmdM "AUTH LOGIN" c with
  | (c, .error e) => (c, .error e)
  | (c, .ok (code, resp)) =>
    if code ≠ 334 then (c, .error (.promptFailed code resp))
    else
      match cmdM (pyStripStr (b64 username)) c with
      | (c, .error e) => (c, .error e)
      | (c, .ok (code, resp)) =>
        if code ≠ 334 then (c, .error (.usernameFailed code resp))
        else authFinal (cmdM (pyStripStr (b64 password)) c)

/-- `SMTP.login` of umailesp.py (lines 115-146): re-issue EHLO, scan for
the AUTH feature, then pick PLAIN before LOGIN; `if not auths` covers both
a missing AUTH feature and an empty mechanism list.  (The assignment
`self.username = username` is not tracked here; `toM` takes the session
username as an explicit argument.) -/
def loginM (username password : String) (b64 : String → String) (c : Conn) :
    Conn × Except SmtpErr (Int × List String) :=
  match cmdM ehloStr c with
  | (c, .error e) => (c, .error e)
  | (c, .ok (code, resp)) =>
    if code ≠ 250 then (c, .error (.ehloFailed code resp))
    else
      match scanAuths resp with
      | none => (c, .error .noAuthMethods)
      | some auths =>
        if auths = [] then (c, .error .noAuthMethods)
        else if "PLAIN" ∈ auths then plainBranch username password b64 c
        else if "LOGIN" ∈ auths then loginBranch username password b64 c
        else (c, .error (.unsupportedAuth auths))

/-- Tail of `SMTP.__init__`: log in when both credentials are truthy. -/
def initFinish (username password : Option String) (b64 : String → String) (c : Conn) :
    Conn × Except SmtpErr Unit :=
  if pyTruthy username && pyTruthy password then
    match loginM (username.getD "") (password.getD "") b64 c with
    | (c, .error e) => (c, .error e)
    | (c, .ok _) => (c, .ok ())
  else (c, .ok ())

/-- `SMTP.__init__` of umailesp.py from the point the stream is open
(lines 36-81): optional direct security, greeting (a single `readline`,
`int` of the first three characters, 220 required), EHLO requiring 250,
then — when direct security was not requested and a feature line equals
`STARTTLS` — the STARTTLS exchange requiring 220, the in-place upgrade,
and a second EHLO requiring 250; finally optional login.  Debug prints,
the fixed sleep and the `hasattr` sanity checks of the source have no
protocol effect and are not modelled. -/
def initM (use_ssl : Bool) (username password : Option String) (b64 : String → String)
    (c0 : Conn) : Conn × Except SmtpErr Unit :=
  let c := if use_ssl then { c0 with secured := true } else c0
  match c.inp with
  | [] => (c, .error .noGreeting)
  | g :: rest =>
    let c := { c with inp := rest }
    let gs := rstripCRLF g
    match pyInt? (pyTake gs 3) with
    | none => (c, .error (.pyValueError (pyTake gs 3)))
    | some gcode =>
      if gcode ≠ 220 then (c, .error (.connectFailed gcode))
      else
        match cmdM ehloStr c with
        | (c, .error e) => (c, .error e)
        | (c, .ok (code, resp)) =>
          if code ≠ 250 then (c, .error (.ehloFailed code resp))
          else if !use_ssl && decide ("STARTTLS" ∈ resp) then
            match cmdM "STARTTLS" c with
            | (c, .error e) => (c, .error e)
            | (c, .ok (code2, resp2)) =>
              if code2 ≠ 220 then (c, .error (.starttlsFailed code2 resp2))
              else
                let c := { c with secured := true }
                match cmdM ehloStr c with
                | (c, .error e) => (c, .error e)
                | (c, .ok (code3, resp3)) =>
                  if code3 ≠ 250 then (c, .error (.ehloAgainFailed code3 resp3))
                  else initFinish username password b64 c
          else initFinish username password b64 c

/-- Normalization of the `addrs` argument of `SMTP.to`: a bare string
becomes a one-element list. -/
def pyListify : Sum String (List String) → List String
  | .inl s => [s]
  | .inr l => l

/-- RCPT loop of `SMTP.to`: issue `RCPT TO` for each address, counting
refusals (codes other than 250/251); `code` and `resp` always hold the
last reply. -/
def rcptLoop (addrs : List String) (c : Conn) (count : Nat) (code : Int)
    (resp : List String) : Conn × Except SmtpErr (Nat × Int × List String) :=
  match addrs with
  | [] => (c, .ok (count, code, resp))
  | a :: rest =>
    match cmdM ("RCPT TO: <" ++ a ++ ">") c with
    | (c, .error e) => (c, .error e)
    | (c, .ok (cd, rs)) =>
      if cd = 250 ∨ cd = 251 then rcptLoop rest c count cd rs
      else rcptLoop rest c (count + 1) cd rs

/-- Status check after `DATA`: require 354. -/
def dataCheck : Except SmtpErr (Int × List String) → Except SmtpErr (Int × List String)
  | .error e => .error e
  | .ok (code, resp) => if code ≠ 354 then .error (.dataRefused code resp) else .ok (code, resp)

/-- One attempt of the `SMTP.to` body (the `try` block): MAIL FROM
requiring 250, the RCPT loop, the all-refused check, then DATA requiring
354. -/
def toAttempt (mf : String) (addrs0 : Sum String (List String)) (c : Conn) :
    Conn × Except SmtpErr (Int × List String) :=
  match cmdM ("MAIL FROM: <" ++ mf ++ ">") c with
  | (c, .error e) => (c, .error e)
  | (c, .ok (code, resp)) =>
    if code ≠ 250 then (c, .error (.senderRefused code resp))
    else
      let addrs := pyListify addrs0
      match rcptLoop addrs c 0 code resp with
      | (c, .error e) => (c, .error e)
      | (c, .ok (count, code2, resp2)) =>
        if count = addrs.length then (c, .error (.allRefused code2 resp2))
        else
          match cmdM "DATA" c with
          | (c, r) => (c, dataCheck r)

/-- Retry loop of `SMTP.to`, indexed by the number of remaining attempts:
an attempt that raises is retried unless it was the last one, in which
case the exception propagates; a loop that never runs falls through to
`None`. -/
def toLoop (mf : String) (addrs : Sum String (List String)) :
    Nat → Conn → Conn × Except SmtpErr (Option (Int × List String))
  | 0, c => (c, .ok none)
  | Nat.succ n, c =>
    match toAttempt mf addrs c with
    | (c2, .ok r) => (c2, .ok (some r))
    | (c2, .error e) => if n = 0 then (c2, .error e) else toLoop mf addrs n c2

/-- Sender resolution of `SMTP.to`:
`mail_from = self.username if mail_from is None else mail_from` (a `None`
username then interpolates as the word `None`). -/
def resolveMF (mail_from selfUsername : Option String) : String :=
  match mail_from with
  | none => optStr selfUsername
  | some s => s

/-- `SMTP.to` (identical in both source files): default the sender to the
session username, then run `range(retries)` attempts. -/
def toM (addrs : Sum String (List String)) (mail_from : Option String) (retries : Int)
    (selfUsername : Option String) (c : Conn) :
    Conn × Except SmtpErr (Option (Int × List String)) :=
  toLoop (resolveMF mail_from selfUsername) addrs retries.toNat c

/-- The MIME preamble written by `SMTP.send` when `mime` is set. -/
def mimeHdr : String := "MIME-Version: 1.0\r\nContent-Type: text/plain; charset=UTF-8\r\n"

/-- `SMTP.send` of umailesp.py (lines 182-197): optional MIME preamble
plus a blank separator line, optional content, the DATA terminator, then
one reply line (`readline().strip()`, empty is fatal, code from the first
three characters, text from index 4). -/
def sendM (content : String) (mime : Bool) (c : Conn) : Conn × Except SmtpErr (Int × String) :=
  let c := if mime then { c with out := c.out ++ [(c.secured, mimeHdr), (c.secured, crlf)] } else c
  let c := if content ≠ "" then { c with out := c.out ++ [(c.secured, content)] } else c
  let c := { c with out := c.out ++ [(c.secured, "\r\n.\r\n")] }
  match c.inp with
  | [] => (c, .error .noSendResponse)
  | l :: rest =>
    let c := { c with inp := rest }
    let line := pyStripStr l
    if line = "" then (c, .error .noSendResponse)
    else
      match pyInt? (pyTake line 3) with
      | none => (c, .error (.pyValueError (pyTake line 3)))
      | some code => (c, .ok (code, pyDrop line 4))

/-- `SMTP.quit` of umailesp.py: issue QUIT, discarding success or failure
alike, then close the stream. -/
def quitM (c : Conn) : Conn :=
  let c2 := (cmdM "QUIT" c).1
  { c2 with closed := c2.closed + 1 }

/-- Session state for umailesp32.py, whose socket is read byte-wise: the
incoming side is the pending character stream; the other fields are as in
`Conn`. -/
structure Conn32 where
  inp : List Char
  out : List (Bool × String)
  secured : Bool
  closed : Nat
deriving DecidableEq

/-- `sock.read(n)`: up to `n` characters off the stream. -/
def read32 (n : Nat) (inp : List Char) : String × List Char :=
  (⟨inp.take n⟩, inp.drop n)

/-- `sock.readline()`: characters up to and including the newline (or the
whole rest of the stream at end of input). -/
def readline32 : List Char → List Char × List Char
  | [] => ([], [])
  | c :: rest =>
    if c = '\n' then ([c], rest)
    else
      match readline32 rest with
      | (l, r) => (c :: l, r)

/-- Continuation loop of umailesp32.py `SMTP.cmd`
(`while sock.read(1) == b'-': resp += ' ' + sock.readline().strip().decode()`),
rendered as a character-at-a-time state machine so that it is structurally
recursive: `marker` is about to execute `read(1)` (which consumes the
character even when it is not a dash), `line` is inside the `readline`
with the characters read so far held in reverse. -/
inductive ScanSt where
  | marker (acc : String)
  | line (acc : String) (cur : List Char)

/-- Run the continuation loop; returns the accumulated reply string and
the remaining stream. -/
def cmd32Scan : ScanSt → List Char → String × List Char
  | .marker acc, [] => (acc, [])
  | .marker acc, c :: rest =>
    if c = '-' then cmd32Scan (.line acc []) rest else (acc, rest)
  | .line acc cur, [] => (acc ++ " " ++ pyStripStr ⟨cur.reverse⟩, [])
  | .line acc cur, c :: rest =>
    if c = '\n' then cmd32Scan (.marker (acc ++ " " ++ pyStripStr ⟨(c :: cur).reverse⟩)) rest
    else cmd32Scan (.line acc (c :: cur)) rest

/-- `SMTP.cmd` of umailesp32.py (lines 32-44): write the command, read the
three-character code (empty read is fatal, `int` may raise), read the rest
of the line, then run the continuation loop; the whole reply is returned
as a single-element list. -/
def cmd32M (cmdStr : String) (c : Conn32) : Conn32 × Except SmtpErr (Int × List String) :=
  let c1 : Conn32 := { c with out := c.out ++ [(c.secured, cmdStr ++ crlf)] }
  match read32 3 c1.inp with
  | (codeS, i1) =>
    if codeS = "" then ({ c1 with inp := i1 }, .error .noSmtpResponse)
    else
      match pyInt? codeS with
      | none => ({ c1 with inp := i1 }, .error (.pyValueError codeS))
      | some code =>
        match readline32 i1 with
        | (l, i2) =>
          match cmd32Scan (.marker (pyStripStr ⟨l⟩)) i2 with
          | (resp, i3) => ({ c1 with inp := i3 }, .ok (code, [resp]))

/-- PLAIN branch of umailesp32.py `SMTP.login`
(`b64(...)[:-1].decode()` drops the trailing newline of `b2a_base64`). -/
def plainBranch32 (username password : String) (b64 : String → String) (c : Conn32) :
    Conn32 × Except SmtpErr (Int × List String) :=
  authFinal (cmd32M ("AUTH PLAIN " ++ pyDropLast (b64 ("\x00" ++ username ++ "\x00" ++ password))) c)

/-- LOGIN branch of umailesp32.py `SMTP.login`: the username rides on the
`AUTH LOGIN` command itself, 334 is required once, then the password. -/
def loginBranch32 (username password : String) (b64 : String → String) (c : Conn32) :
    Conn32 × Except SmtpErr (Int × List String) :=
  match cmd32M ("AUTH LOGIN " ++ pyDropLast (b64 username)) c with
  | (c, .error e) => (c, .error e)
  | (c, .ok (code, resp)) =>
    if code ≠ 334 then (c, .error (.usernameFailed code resp))
    else authFinal (cmd32M (pyDropLast (b64 password)) c)

/-- `SMTP.login` of umailesp32.py (lines 86-114): identical feature scan
and mechanism preference to umailesp.py; only the LOGIN exchange differs. -/
def login32M (username password : String) (b64 : String → String) (c : Conn32) :
    Conn32 × Except SmtpErr (Int × List String) :=
  match cmd32M ehloStr c with
  | (c, .error e) => (c, .error e)
  | (c, .ok (code, resp)) =>
    if code ≠ 250 then (c, .error (.ehloFailed code resp))
    else
      match scanAuths resp with
      | none => (c, .error .noAuthMethods)
      | some auths =>
        if auths = [] then (c, .error .noAuthMethods)
        else if "PLAIN" ∈ auths then plainBranch32 username password b64 c
        else if "LOGIN" ∈ auths then loginBranch32 username password b64 c
        else (c, .error (.unsupportedAuth auths))

/-- Tail of umailesp32.py `SMTP.__init__`: log in when both credentials
are truthy. -/
def initFinish32 (username password : Option String) (b64 : String → String) (c : Conn32) :
    Conn32 × Except SmtpErr Unit :=
  if pyTruthy username && pyTruthy password then
    match login32M (username.getD "") (password.getD "") b64 c with
    | (c, .error e) => (c, .error e)
    | (c, .ok _) => (c, .ok ())
  else (c, .ok ())

/-- `SMTP.__init__` of umailesp32.py from the point the stream is open
(lines 66-84): optional direct security, greeting (`int(sock.read(3))`
then a discarded `readline`, 220 required), EHLO requiring 250, then —
without direct security and with a feature line equal to `STARTTLS` — the
STARTTLS exchange requiring 220 and the in-place upgrade.  No second EHLO
is issued.  Finally optional login. -/
def init32M (ssl : Bool) (username password : Option String) (b64 : String → String)
    (c0 : Conn32) : Conn32 × Except SmtpErr Unit :=
  let c := if ssl then { c0 with secured := true } else c0
  match read32 3 c.inp with
  | (codeS, i1) =>
    match pyInt? codeS with
    | none => ({ c with inp := i1 }, .error (.pyValueError codeS))
    | some gcode =>
      match readline32 i1 with
      | (_, i2) =>
        let c := { c with inp := i2 }
        if gcode ≠ 220 then (c, .error (.connectFailed gcode))
        else
          match cmd32M ehloStr c with
          | (c, .error e) => (c, .error e)
          | (c, .ok (code, resp)) =>
            if code ≠ 250 then (c, .error (.ehloFailed code resp))
            else if !ssl && decide ("STARTTLS" ∈ resp) then
              match cmd32M "STARTTLS" c with
              | (c, .error e) => (c, .error e)
              | (c, .ok (code2, resp2)) =>
                if code2 ≠ 220 then (c, .error (.starttlsFailed code2 resp2))
                else initFinish32 username password b64 { c with secured := true }
            else initFinish32 username password b64 c

/-- RCPT loop of umailesp32.py `SMTP.to` (the `to` body is identical in
both files; only the underlying `cmd` differs). -/
def rcptLoop32 (addrs : List String) (c : Conn32) (count : Nat) (code : Int)
    (resp : List String) : Conn32 × Except SmtpErr (Nat × Int × List String) :=
  match addrs with
  | [] => (c, .ok (count, code, resp))
  | a :: rest =>
    match cmd32M ("RCPT TO: <" ++ a ++ ">") c with
    | (c, .error e) => (c, .error e)
    | (c, .ok (cd, rs)) =>
      if cd = 250 ∨ cd = 251 then rcptLoop32 rest c count cd rs
      else rcptLoop32 rest c (count + 1) cd rs

/-- One attempt of the umailesp32.py `SMTP.to` body. -/
def toAttempt32 (mf : String) (addrs0 : Sum String (List String)) (c : Conn32) :
    Conn32 × Except SmtpErr (Int × List String) :=
  match cmd32M ("MAIL FROM: <" ++ mf ++ ">") c with
  | (c, .error e) => (c, .error e)
  | (c, .ok (code, resp)) =>
    if code ≠ 250 then (c, .error (.senderRefused code resp))
    else
      let addrs := pyListify addrs0
      match rcptLoop32 addrs c 0 code resp with
      | (c, .error e) => (c, .error e)
      | (c, .ok (count, code2, resp2)) =>
        if count = addrs.length then (c, .error (.allRefused code2 resp2))
        else
          match cmd32M "DATA" c with
          | (c, r) => (c, dataCheck r)

/-- Retry loop of umailesp32.py `SMTP.to`. -/
def toLoop32 (mf : String) (addrs : Sum String (List String)) :
    Nat → Conn32 → Conn32 × Except SmtpErr (Option (Int × List String))
  | 0, c => (c, .ok none)
  | Nat.succ n, c =>
    match toAttempt32 mf addrs c with
    | (c2, .ok r) => (c2, .ok (some r))
    | (c2, .error e) => if n = 0 then (c2, .error e) else toLoop32 mf addrs n c2

/-- `SMTP.to` of umailesp32.py. -/
def to32M (addrs : Sum String (List String)) (mail_from : Option String) (retries : Int)
    (selfUsername : Option String) (c : Conn32) :
    Conn32 × Except SmtpErr (Option (Int × List String)) :=
  toLoop32 (resolveMF mail_from selfUsername) addrs retries.toNat c

/-- `SMTP.send` of umailesp32.py (lines 155-173): the MIME preamble has no
blank separator line; the reply line is read raw, the emptiness check
precedes any stripping, the code comes from the first three characters and
the text from index 4 after stripping. -/
def send32M (content : String) (mime : Bool) (c : Conn32) : Conn32 × Except SmtpErr (Int × String) :=
  let c := if mime then { c with out := c.out ++ [(c.secured, mimeHdr)] } else c
  let c := if content ≠ "" then { c with out := c.out ++ [(c.secured, content)] } else c
  let c := { c with out := c.out ++ [(c.secured, "\r\n.\r\n")] }
  match readline32 c.inp with
  | (l, rest) =>
    let c := { c with inp := rest }
    if l = [] then (c, .error .noSendResponse)
    else
      match pyInt? (pyTake ⟨l⟩ 3) with
      | none => (c, .error (.pyValueError (pyTake ⟨l⟩ 3)))
      | some code => (c, .ok (code, pyStripStr (pyDrop ⟨l⟩ 4)))

/-- `SMTP.quit` of umailesp32.py. -/
def quit32M (c : Conn32) : Conn32 :=
  let c2 := (cmd32M "QUIT" c).1
  { c2 with closed := c2.closed + 1 }

/-! ### Derived notions used to state the claims -/

/-- The text the parser keeps from one reply line
(`line_str[3:].lstrip('- ')` after `rstrip('\r\n')`). -/
def lineText (l : String) : String := lstripDashSpace (pyDrop (rstripCRLF l) 3)

/-- A raw line the parser treats as a continuation line of a multi-line
reply: after stripping, length at least 4, a parsable three-character
code, and a dash at index 3. -/
def goodContLine (l : String) : Bool :=
  decide (4 ≤ pyLen (rstripCRLF l)) && (pyInt? (pyTake (rstripCRLF l) 3)).isSome &&
    (pyGet? (rstripCRLF l) 3 == some '-')

/-- A raw line the parser treats as the final line of a reply: after
stripping, length at least 3, a parsable three-character code, and no dash
at index 3 (or no index 3 at all). -/
def goodFinalLine (l : String) : Bool :=
  decide (3 ≤ pyLen (rstripCRLF l)) && (pyInt? (pyTake (rstripCRLF l) 3)).isSome &&
    (decide (pyLen (rstripCRLF l) < 4) || !(pyGet? (rstripCRLF l) 3 == some '-'))

/-- Number of `MAIL FROM` commands in an output trace. -/
def countMF (out : List (Bool × String)) : Nat :=
  (out.filter (fun pr => pyTake pr.2 10 == "MAIL FROM:")).length

/-! ### Lemmas about the command primitives -/

theorem cmdM_eq (s : String) (c : Conn) :
    cmdM s c =
      ({ c with inp := (readReply s c.inp).1,
                out := c.out ++ [(c.secured, s ++ crlf)] },
       (readReply s c.inp).2) := by
  unfold cmdM
  rcases h : readReply s c.inp with ⟨rem, r⟩
  simp [h]

theorem cmdM_fst (s : String) (c : Conn) :
    (cmdM s c).1 =
      { c with inp := (readReply s c.inp).1,
               out := c.out ++ [(c.secured, s ++ crlf)] } := by
  unfold cmdM
  rcases h : readReply s c.inp with ⟨rem, r⟩
  simp [h]

theorem cmdM_out (s : String) (c : Conn) :
    (cmdM s c).1.out = c.out ++ [(c.secured, s ++ crlf)] := by
  rw [cmdM_fst]

theorem cmdM_secured (s : String) (c : Conn) :
    (cmdM s c).1.secured = c.secured := by
  rw [cmdM_fst]

theorem cmdM_closed (s : String) (c : Conn) :
    (cmdM s c).1.closed = c.closed := by
  rw [cmdM_fst]

theorem cmd32M_closed (s : String) (c : Conn32) :
    (cmd32M s c).1.closed = c.closed := by
  simp only [cmd32M, read32]
  repeat' split
  all_goals rfl

theorem cmd32M_out (s : String) (c : Conn32) :
    (cmd32M s c).1.out = c.out ++ [(c.secured, s ++ crlf)] := by
  simp only [cmd32M, read32]
  repeat' split
  all_goals rfl

theorem cmd32M_secured (s : String) (c : Conn32) :
    (cmd32M s c).1.secured = c.secured := by
  simp only [cmd32M, read32]
  repeat' split
  all_goals rfl

/-- The umailesp32.py parser packs every reply into a one-element list. -/
theorem cmd32M_singleton (s : String) (c c2 : Conn32) (code : Int) (lines : List String)
    (h : cmd32M s c = (c2, .ok (code, lines))) : lines.length = 1 := by
  simp only [cmd32M, read32] at h
  repeat' split at h
  all_goals simp only [Prod.mk.injEq, Except.ok.injEq, reduceCtorEq, and_false, false_and] at h
  rcases h with ⟨-, -, h⟩
  subst h
  rfl

/-! ### The reply-parsing loop of umailesp.py -/

/-- Unfolding of `readReply` on a final line. -/
theorem readReply_final (cmdStr lst : String) (rest : List String)
    (code : Int) (hc : pyInt? (pyTake (rstripCRLF lst) 3) = some code)
    (h3 : ¬ pyLen (rstripCRLF lst) < 3)
    (hbrk : (decide (pyLen (rstripCRLF lst) < 4) || !(pyGet? (rstripCRLF lst) 3 == some '-')) = true) :
    readReply cmdStr (lst :: rest) = (rest, .ok (code, [lineText lst])) := by
  simp only [readReply, if_neg h3, hc, hbrk, if_true, lineText]

/-- Unfolding of `readReply` on a continuation line. -/
theorem readReply_cont (cmdStr m : String) (tail : List String)
    (code : Int) (hc : pyInt? (pyTake (rstripCRLF m) 3) = some code)
    (h4 : 4 ≤ pyLen (rstripCRLF m))
    (hd : pyGet? (rstripCRLF m) 3 = some '-') :
    readReply cmdStr (m :: tail) =
      (match readReply cmdStr tail with
       | (rem, .error e) => (rem, .error e)
       | (rem, .ok (code2, lines)) => (rem, .ok (code2, lineText m :: lines))) := by
  have h3 : ¬ pyLen (rstripCRLF m) < 3 := by omega
  have hbrk : (decide (pyLen (rstripCRLF m) < 4) || !(pyGet? (rstripCRLF m) 3 == some '-')) = false := by
    simp [hd]
    omega
  simp only [readReply, if_neg h3, hc, hbrk, Bool.false_eq_true, if_false, lineText]

/-- Specification of the umailesp.py reply parser on a well-formed
multi-line reply: given continuation lines `mids`, a final line `lst` and
further pending input `rest`, the parser consumes exactly the reply, keeps
every line's text in arrival order, and reports the code of the final
line. -/
theorem readReply_spec (cmdStr : String) (mids : List String) (lst : String)
    (rest : List String)
    (hm : ∀ l ∈ mids, goodContLine l = true) (hl : goodFinalLine lst = true) :
    ∃ code, pyInt? (pyTake (rstripCRLF lst) 3) = some code ∧
      readReply cmdStr (mids ++ lst :: rest) =
        (rest, .ok (code, (mids ++ [lst]).map lineText)) := by
  simp only [goodFinalLine, Bool.and_eq_true, Option.isSome_iff_exists] at hl
  obtain ⟨⟨h3, code, hc⟩, hbrk⟩ := hl
  refine ⟨code, hc, ?_⟩
  induction mids with
  | nil =>
    simp only [List.nil_append, List.map_cons, List.map_nil]
    exact readReply_final cmdStr lst rest code hc (by simpa using h3) hbrk
  | cons m ms ih =>
    have hgm : goodContLine m = true := hm m (List.mem_cons_self m ms)
    simp only [goodContLine, Bool.and_eq_true, Option.isSome_iff_exists, beq_iff_eq] at hgm
    obtain ⟨⟨h4, codem, hcm⟩, hdm⟩ := hgm
    have ihx := ih (fun l hl => hm l (List.mem_cons_of_mem m hl))
    simp only [List.cons_append]
    rw [readReply_cont cmdStr m (ms ++ lst :: rest) codem hcm (by simpa using h4) hdm, ihx]
    simp

/-- Every successfully parsed reply carries at least one line. -/
theorem readReply_ok_ne_nil (cmdStr : String) :
    ∀ (inp rem : List String) (code : Int) (lines : List String),
      readReply cmdStr inp = (rem, .ok (code, lines)) → lines ≠ [] := by
  intro inp
  induction inp with
  | nil =>
    intro rem code lines h
    simp [readReply] at h
  | cons l rest ih =>
    intro rem code lines h
    simp only [readReply] at h
    split at h
    · simp at h
    · split at h
      · simp at h
      · split at h
        · simp only [Prod.mk.injEq, Except.ok.injEq] at h
          rcases h with ⟨-, -, h⟩
          subst h
          simp
        · rcases h2 : readReply cmdStr rest with ⟨rem2, r2⟩
          rw [h2] at h
          rcases r2 with e | ⟨code2, lines2⟩
          · simp at h
          · simp only [Prod.mk.injEq, Except.ok.injEq] at h
            rcases h with ⟨-, -, h⟩
            subst h
            simp

/-! ### Claim C1 -/

/-- C1 fails for the `cmd` of umailesp32.py: on the multi-line reply
`250-A` / `250 B` (one continuation line, so the claim demands two
entries), that parser returns a single-element line list. -/
theorem c1_counterexample :
    (cmd32M "EHLO 127.0.0.1" ⟨("250-A\r\n250 B\r\n").data, [], false, 0⟩).2 =
      .ok (250, ["-A"]) ∧ (["-A"] : List String).length ≠ 1 + 1 :=
  ⟨rfl, by decide⟩

/-- C1 (amended): for the `cmd` of umailesp.py the claim holds as stated —
a multi-line reply with N continuation lines yields N+1 entries, in
arrival order, and the returned status code is parsed from the last line;
the `cmd` of umailesp32.py instead always returns a one-element line list. -/
theorem c1_multiline_reply (cmdStr : String) (mids : List String) (lst : String)
    (rest : List String) (c : Conn) (hinp : c.inp = mids ++ lst :: rest)
    (hm : ∀ l ∈ mids, goodContLine l = true) (hl : goodFinalLine lst = true) :
    (∃ code, pyInt? (pyTake (rstripCRLF lst) 3) = some code ∧
      cmdM cmdStr c =
        ({ c with inp := rest, out := c.out ++ [(c.secured, cmdStr ++ crlf)] },
         .ok (code, (mids ++ [lst]).map lineText)) ∧
      ((mids ++ [lst]).map lineText).length = mids.length + 1) ∧
    (∀ (s : String) (c32 c32b : Conn32) (code32 : Int) (lines : List String),
      cmd32M s c32 = (c32b, .ok (code32, lines)) → lines.length = 1) := by
  constructor
  · obtain ⟨code, hc, hrr⟩ := readReply_spec cmdStr mids lst rest hm hl
    refine ⟨code, hc, ?_, by simp⟩
    rw [cmdM_eq, hinp, hrr]
  · intro s c32 c32b code32 lines h
    exact cmd32M_singleton s c32 c32b code32 lines h

/-- Witness for C1: a concrete two-line reply satisfying the hypotheses. -/
theorem c1_witness :
    (∃ code, pyInt? (pyTake (rstripCRLF "250 B\r\n") 3) = some code ∧
      cmdM "NOOP" ⟨["250-A\r\n", "250 B\r\n"], [], false, 0⟩ =
        ({ inp := [], out := [(false, "NOOP" ++ crlf)], secured := false, closed := 0 },
         .ok (code, (["250-A\r\n"] ++ ["250 B\r\n"]).map lineText)) ∧
      ((["250-A\r\n"] ++ ["250 B\r\n"]).map lineText).length = ["250-A\r\n"].length + 1) ∧
    (∀ (s : String) (c32 c32b : Conn32) (code32 : Int) (lines : List String),
      cmd32M s c32 = (c32b, .ok (code32, lines)) → lines.length = 1) :=
  c1_multiline_reply "NOOP" ["250-A\r\n"] "250 B\r\n" []
    ⟨["250-A\r\n", "250 B\r\n"], [], false, 0⟩ rfl (by decide) (by decide)

/-! ### Claim C7 -/

/-- C7 fails on the status-code range: the parser applies no range check,
so the reply line `999 x` is returned with code 999, outside [100,599]. -/
theorem c7_counterexample :
    (cmdM "NOOP" ⟨["999 x\r\n"], [], false, 0⟩).2 = .ok (999, ["x"]) ∧
    ¬ ((999 : Int) ≤ 599) :=
  ⟨rfl, by decide⟩

/-- C7 (amended): every reply returned by the command/response exchange of
either file has at least one line; the status code is whatever integer the
parser reads and is not constrained to [100,599]. -/
theorem c7_reply_invariant :
    (∀ (cmdStr : String) (c c2 : Conn) (code : Int) (lines : List String),
      cmdM cmdStr c = (c2, .ok (code, lines)) → lines ≠ []) ∧
    (∀ (s : String) (c32 c32b : Conn32) (code : Int) (lines : List String),
      cmd32M s c32 = (c32b, .ok (code, lines)) → lines ≠ []) := by
  constructor
  · intro cmdStr c c2 code lines h
    rw [cmdM_eq] at h
    have h2 : (readReply cmdStr c.inp).2 = .ok (code, lines) := by
      have := congrArg Prod.snd h
      simpa using this
    rcases h3 : readReply cmdStr c.inp with ⟨rem, r⟩
    rw [h3] at h2
    have h4 : r = .ok (code, lines) := h2
    exact readReply_ok_ne_nil cmdStr c.inp rem code lines (by rw [h3, h4])
  · intro s c32 c32b code lines h
    have h1 := cmd32M_singleton s c32 c32b code lines h
    intro hn
    rw [hn] at h1
    simp at h1

/-- Witness for C7: concrete successful parses in both embeddings. -/
theorem c7_witness : (["ok"] : List String) ≠ [] ∧ (["B"] : List String) ≠ [] :=
  ⟨c7_reply_invariant.1 "NOOP" ⟨["250 ok\r\n"], [], false, 0⟩
      ⟨[], [(false, "NOOP\r\n")], false, 0⟩ 250 ["ok"] rfl,
   c7_reply_invariant.2 "NOOP" ⟨("250 B\r\n").data, [], false, 0⟩
      ⟨[], [(false, "NOOP\r\n")], false, 0⟩ 250 ["B"] rfl⟩

/-! ### Claim C6 -/

/-- Does the first character of the text avoid the `lstrip('- ')` strip
set (vacuously true for empty text)?  Decidable form used as a hypothesis. -/
def headNotSep (text : String) : Bool :=
  match text.data.head? with
  | some ch => !(isDashSpace ch)
  | none => true

/-- Stripping the CRLF terminator recovers a code line whose text part
contains no CR or LF. -/
theorem rstripCRLF_code_line (codeStr text : String)
    (hno : ∀ ch ∈ text.data, isCRLFChar ch = false) :
    rstripCRLF (codeStr ++ " " ++ text ++ crlf) = codeStr ++ " " ++ text := by
  have hd : (codeStr ++ " " ++ text ++ crlf).data
      = ((codeStr.data ++ [' ']) ++ text.data) ++ ['\r', '\n'] := rfl
  have key : List.dropWhile isCRLFChar ((((codeStr.data ++ [' ']) ++ text.data) ++ ['\r', '\n']).reverse)
      = ((codeStr.data ++ [' ']) ++ text.data).reverse := by
    rw [List.reverse_append]
    have h1 : (['\r', '\n'] : List Char).reverse = ['\n', '\r'] := rfl
    rw [h1]
    have h2 : isCRLFChar '\n' = true := rfl
    have h3 : isCRLFChar '\r' = true := rfl
    show List.dropWhile isCRLFChar ('\n' :: '\r' :: ((codeStr.data ++ [' ']) ++ text.data).reverse) = _
    rw [List.dropWhile_cons, h2]
    simp only [if_true]
    rw [List.dropWhile_cons, h3]
    simp only [if_true]
    rw [List.reverse_append]
    rcases hrev : text.data.reverse with _ | ⟨ch, t⟩
    · simp only [List.nil_append]
      rw [List.reverse_append]
      show List.dropWhile isCRLFChar (' ' :: codeStr.data.reverse) = _
      rw [List.dropWhile_cons]
      have h4 : isCRLFChar ' ' = false := rfl
      rw [h4]
      simp
    · have hch : isCRLFChar ch = false := by
        apply hno
        have hmem : ch ∈ text.data.reverse := by
          rw [hrev]
          exact List.mem_cons_self _ _
        exact List.mem_reverse.mp hmem
      rw [List.cons_append, List.dropWhile_cons, hch]
      simp
  unfold rstripCRLF
  rw [hd, key, List.reverse_reverse]
  rfl

/-- The umailesp.py parser on a well-formed single-line reply
`codeStr ⟨space⟩ text`: everything after the code is kept with all leading
dashes and spaces removed, which under `headNotSep` is exactly the
separator. -/
theorem readReply_single_line (cmdStr codeStr text : String) (code : Int) (rest : List String)
    (hlen : pyLen codeStr = 3) (hcode : pyInt? codeStr = some code)
    (hno : ∀ ch ∈ text.data, isCRLFChar ch = false)
    (hhead : headNotSep text = true) :
    readReply cmdStr ((codeStr ++ " " ++ text ++ crlf) :: rest) = (rest, .ok (code, [text])) := by
  have hstrip := rstripCRLF_code_line codeStr text hno
  have hlen3 : codeStr.data.length = 3 := hlen
  have hdata : (codeStr ++ " " ++ text).data = codeStr.data ++ (' ' :: text.data) := by
    show (codeStr.data ++ [' ']) ++ text.data = _
    rw [List.append_assoc]
    rfl
  have htake : pyTake (codeStr ++ " " ++ text) 3 = codeStr := by
    unfold pyTake
    rw [hdata, ← hlen3, List.take_left]
  have hdrop : pyDrop (codeStr ++ " " ++ text) 3 = String.mk (' ' :: text.data) := by
    unfold pyDrop
    rw [hdata, ← hlen3, List.drop_left]
  have hls : lstripDashSpace (String.mk (' ' :: text.data)) = text := by
    unfold lstripDashSpace
    show String.mk (List.dropWhile isDashSpace (' ' :: text.data)) = text
    rw [List.dropWhile_cons]
    have h4 : isDashSpace ' ' = true := rfl
    rw [h4]
    simp only [if_true]
    have hkeep : List.dropWhile isDashSpace text.data = text.data := by
      rcases hh : text.data with _ | ⟨ch, t⟩
      · rfl
      · rw [List.dropWhile_cons]
        have hch : isDashSpace ch = false := by
          unfold headNotSep at hhead
          rw [hh] at hhead
          simpa using hhead
        rw [hch]
        simp
    rw [hkeep]
  have hplen : pyLen (codeStr ++ " " ++ text) = 4 + text.data.length := by
    unfold pyLen
    rw [hdata]
    simp [hlen3]
    omega
  have hget : pyGet? (codeStr ++ " " ++ text) 3 = some ' ' := by
    unfold pyGet?
    rw [hdata, ← hlen3, List.get?_eq_getElem?, List.getElem?_append_right (le_refl _)]
    simp
  have hbrk : (decide (pyLen (rstripCRLF (codeStr ++ " " ++ text ++ crlf)) < 4)
      || !(pyGet? (rstripCRLF (codeStr ++ " " ++ text ++ crlf)) 3 == some '-')) = true := by
    rw [hstrip, hget]
    simp
  rw [readReply_final cmdStr (codeStr ++ " " ++ text ++ crlf) rest code
      (by rw [hstrip, htake]; exact hcode)
      (by rw [hstrip, hplen]; omega) hbrk]
  unfold lineText
  rw [hstrip, hdrop, hls]

/-- C6 fails on text that itself begins with a separator character: the
parser strips every leading dash and space, so the single-line reply
`250 ⟨space⟩⟨space⟩hi` (code `250`, separator, text `␣␣hi`) comes back as
`hi`, not `␣␣hi`. -/
theorem c6_counterexample :
    (cmdM "NOOP" ⟨[("250" ++ " " ++ "  hi" ++ crlf)], [], false, 0⟩).2 = .ok (250, ["hi"]) ∧
    ("hi" : String) ≠ "  hi" :=
  ⟨rfl, by decide⟩

/-- C6 (amended): for every well-formed single-line reply
`CCC⟨space⟩text`, the umailesp.py parser returns the code and `[text]`
with exactly the separator stripped, provided the text does not itself
begin with a dash or space (in general every leading dash and space is
stripped, not only the single separator). -/
theorem c6_single_line (cmdStr codeStr text : String) (code : Int) (rest : List String)
    (c : Conn) (hinp : c.inp = (codeStr ++ " " ++ text ++ crlf) :: rest)
    (hlen : pyLen codeStr = 3) (hcode : pyInt? codeStr = some code)
    (hno : ∀ ch ∈ text.data, isCRLFChar ch = false)
    (hhead : headNotSep text = true) :
    cmdM cmdStr c =
      ({ c with inp := rest, out := c.out ++ [(c.secured, cmdStr ++ crlf)] },
       .ok (code, [text])) := by
  rw [cmdM_eq, hinp, readReply_single_line cmdStr codeStr text code rest hlen hcode hno hhead]

/-- Witness for C6: the reply `250 OK!`. -/
theorem c6_witness :
    cmdM "NOOP" ⟨[("250" ++ " " ++ "OK!" ++ crlf)], [], false, 0⟩ =
      ({ inp := [], out := [(false, "NOOP" ++ crlf)], secured := false, closed := 0 },
       .ok (250, ["OK!"])) :=
  c6_single_line "NOOP" "250" "OK!" 250 [] ⟨[("250" ++ " " ++ "OK!" ++ crlf)], [], false, 0⟩
    rfl (by decide) (by decide) (by decide) (by decide)

/-! ### Claim C9 -/

/-- C9: in both files `quit` closes the underlying stream exactly once,
and its result is the state left by the QUIT exchange with the close
counter bumped — independent of whether that exchange succeeded or raised,
so a failure of the exchange is never propagated. -/
theorem c9_quit_closes_once :
    (∀ c : Conn, (quitM c).closed = c.closed + 1 ∧
      quitM c = { (cmdM "QUIT" c).1 with closed := (cmdM "QUIT" c).1.closed + 1 }) ∧
    (∀ c : Conn32, (quit32M c).closed = c.closed + 1 ∧
      quit32M c = { (cmd32M "QUIT" c).1 with closed := (cmd32M "QUIT" c).1.closed + 1 }) := by
  constructor
  · intro c
    refine ⟨?_, rfl⟩
    show (cmdM "QUIT" c).1.closed + 1 = c.closed + 1
    rw [cmdM_closed]
  · intro c
    refine ⟨?_, rfl⟩
    show (cmd32M "QUIT" c).1.closed + 1 = c.closed + 1
    rw [cmd32M_closed]

/-! ### Claim C10 -/

/-- C10: with a nonpositive retry count the loop body of `to` never runs
in either file — the state is untouched (no MAIL FROM, RCPT TO or DATA is
written), no exception is raised, and the result is `None`. -/
theorem c10_nonpositive_retries (addrs : Sum String (List String))
    (mailFrom uname : Option String) (retries : Int) (hr : retries ≤ 0)
    (c : Conn) (c32 : Conn32) :
    toM addrs mailFrom retries uname c = (c, .ok none) ∧
    to32M addrs mailFrom retries uname c32 = (c32, .ok none) := by
  have h0 : retries.toNat = 0 := Int.toNat_of_nonpos hr
  constructor
  · unfold toM
    rw [h0]
    rfl
  · unfold to32M
    rw [h0]
    rfl

/-- Witness for C10 at `retries = -1`. -/
theorem c10_witness :
    toM (.inr ["a@b"]) none (-1) none ⟨["250 ok\r\n"], [], false, 0⟩ =
      (⟨["250 ok\r\n"], [], false, 0⟩, .ok none) ∧
    to32M (.inr ["a@b"]) none (-1) none ⟨[], [], false, 0⟩ = (⟨[], [], false, 0⟩, .ok none) :=
  c10_nonpositive_retries (.inr ["a@b"]) none none (-1) (by decide)
    ⟨["250 ok\r\n"], [], false, 0⟩ ⟨[], [], false, 0⟩

/-! ### Claim C8 -/

/-- Split a character stream at CRLF boundaries; the final element is the
(possibly empty) tail after the last terminator. -/
def splitCRLF : List Char → List (List Char)
  | [] => [[]]
  | '\r' :: '\n' :: rest => [] :: splitCRLF rest
  | c :: rest =>
    match splitCRLF rest with
    | [] => [[c]]
    | s :: ss => (c :: s) :: ss

/-- The CRLF-terminated lines of a string (the unterminated tail dropped). -/
def crlfLines (s : String) : List (List Char) := (splitCRLF s.data).dropLast

/-- C8 fails for umailesp.py: with `mime=true` the bytes written before
the content are the two preamble lines *plus* an empty line (`send` writes
an extra bare CRLF), i.e. three CRLF-terminated lines, not exactly two. -/
theorem c8_counterexample :
    (sendM "Hello" true ⟨["250 OK\r\n"], [], false, 0⟩).1.out.map Prod.snd =
      [mimeHdr, crlf, "Hello", "\r\n.\r\n"] ∧
    (crlfLines (mimeHdr ++ crlf)).length = 3 :=
  ⟨rfl, rfl⟩

/-- C8 (amended): `send(content, mime=true)` writes the two MIME preamble
lines, followed in umailesp.py by one empty header-terminating line (and
by nothing extra in umailesp32.py), then the content, then the DATA
terminator `\r\n.\r\n`; the final reply `250 OK` is returned as
`(250, "OK")`. -/
theorem c8_send_mime (content : String) (hc : content ≠ "") (rest : List String)
    (c : Conn) (hinp : c.inp = "250 OK\r\n" :: rest)
    (rest32 : List Char) (c32 : Conn32) (hinp32 : c32.inp = ("250 OK\r\n").data ++ rest32) :
    sendM content true c =
      ({ c with inp := rest,
                out := c.out ++ [(c.secured, mimeHdr), (c.secured, crlf), (c.secured, content),
                                 (c.secured, "\r\n.\r\n")] },
       .ok (250, "OK")) ∧
    send32M content true c32 =
      ({ c32 with inp := rest32,
                  out := c32.out ++ [(c32.secured, mimeHdr), (c32.secured, content),
                                     (c32.secured, "\r\n.\r\n")] },
       .ok (250, "OK")) ∧
    (crlfLines mimeHdr).length = 2 := by
  refine ⟨?_, ?_, rfl⟩
  · simp [sendM, hinp, hc, List.append_assoc,
      show pyStripStr "250 OK\r\n" = "250 OK" from rfl,
      show pyInt? (pyTake "250 OK" 3) = some 250 from rfl,
      show pyDrop "250 OK" 4 = "OK" from rfl]
  · have hrl : readline32 ('2' :: '5' :: '0' :: ' ' :: 'O' :: 'K' :: '\r' :: '\n' :: rest32)
        = (['2', '5', '0', ' ', 'O', 'K', '\r', '\n'], rest32) := by
      simp [readline32]
    simp [send32M, hinp32, hc, List.append_assoc, hrl,
      show pyInt? (pyTake ⟨['2', '5', '0', ' ', 'O', 'K', '\r', '\n']⟩ 3) = some 250 from rfl,
      show pyStripStr (pyDrop ⟨['2', '5', '0', ' ', 'O', 'K', '\r', '\n']⟩ 4) = "OK" from rfl]

/-- Witness for C8 at `content = "Hello"`. -/
theorem c8_witness :
    (sendM "Hello" true ⟨["250 OK\r\n"], [], false, 0⟩ =
      (⟨[], [(false, mimeHdr), (false, crlf), (false, "Hello"), (false, "\r\n.\r\n")], false, 0⟩,
       .ok (250, "OK")) ∧
    send32M "Hello" true ⟨("250 OK\r\n").data, [], false, 0⟩ =
      (⟨[], [(false, mimeHdr), (false, "Hello"), (false, "\r\n.\r\n")], false, 0⟩,
       .ok (250, "OK")) ∧
    (crlfLines mimeHdr).length = 2) :=
  c8_send_mime "Hello" (by decide) [] ⟨["250 OK\r\n"], [], false, 0⟩ rfl
    [] ⟨("250 OK\r\n").data, [], false, 0⟩ (by simp)

/-! ### Claim C3 -/

/-- C3 fails on an empty advertised mechanism set: a feature line `AUTH`
with no mechanisms falls into the `if not auths` branch, so `login` raises
the no-auth-methods error rather than an unsupported-auth-method error
naming the (empty) advertised set. -/
theorem c3_counterexample :
    loginM "u" "p" (fun s => s ++ "\n") ⟨["250 AUTH\r\n"], [], false, 0⟩ =
      (⟨[], [(false, "EHLO 127.0.0.1\r\n")], false, 0⟩, .error .noAuthMethods) ∧
    SmtpErr.noAuthMethods ≠ SmtpErr.unsupportedAuth [] ∧
    errMsg .noAuthMethods ≠ "Auth methods not supported: " ++ joinSep ", " [] :=
  ⟨rfl, by decide, by decide⟩

/-- C3 (amended): for every nonempty advertised mechanism set, `login` in
both files uses AUTH PLAIN whenever PLAIN is advertised (even alongside
LOGIN), uses the LOGIN sequence exactly when PLAIN is absent and LOGIN
present, and otherwise raises the unsupported-auth-method error whose
message names exactly the advertised set; an empty advertised set instead
raises the no-auth-methods error. -/
theorem c3_auth_selection (u p : String) (b64 : String → String)
    (c c1 : Conn) (resp auths : List String)
    (he : cmdM ehloStr c = (c1, .ok (250, resp)))
    (ha : scanAuths resp = some auths) (hne : auths ≠ [])
    (c32 d1 : Conn32) (resp32 auths32 : List String)
    (he32 : cmd32M ehloStr c32 = (d1, .ok (250, resp32)))
    (ha32 : scanAuths resp32 = some auths32) (hne32 : auths32 ≠ []) :
    (("PLAIN" ∈ auths → loginM u p b64 c = plainBranch u p b64 c1) ∧
     ("PLAIN" ∉ auths → "LOGIN" ∈ auths → loginM u p b64 c = loginBranch u p b64 c1) ∧
     ("PLAIN" ∉ auths → "LOGIN" ∉ auths →
        loginM u p b64 c = (c1, .error (.unsupportedAuth auths)) ∧
        errMsg (.unsupportedAuth auths) = "Auth methods not supported: " ++ joinSep ", " auths)) ∧
    (("PLAIN" ∈ auths32 → login32M u p b64 c32 = plainBranch32 u p b64 d1) ∧
     ("PLAIN" ∉ auths32 → "LOGIN" ∈ auths32 → login32M u p b64 c32 = loginBranch32 u p b64 d1) ∧
     ("PLAIN" ∉ auths32 → "LOGIN" ∉ auths32 →
        login32M u p b64 c32 = (d1, .error (.unsupportedAuth auths32)) ∧
        errMsg (.unsupportedAuth auths32) =
          "Auth methods not supported: " ++ joinSep ", " auths32)) := by
  have base : loginM u p b64 c =
      (if "PLAIN" ∈ auths then plainBranch u p b64 c1
       else if "LOGIN" ∈ auths then loginBranch u p b64 c1
       else (c1, .error (.unsupportedAuth auths))) := by
    unfold loginM
    rw [he]
    simp [ha, hne]
  have base32 : login32M u p b64 c32 =
      (if "PLAIN" ∈ auths32 then plainBranch32 u p b64 d1
       else if "LOGIN" ∈ auths32 then loginBranch32 u p b64 d1
       else (d1, .error (.unsupportedAuth auths32))) := by
    unfold login32M
    rw [he32]
    simp [ha32, hne32]
  refine ⟨⟨?_, ?_, ?_⟩, ⟨?_, ?_, ?_⟩⟩
  · intro hp
    rw [base, if_pos hp]
  · intro hp hlg
    rw [base, if_neg hp, if_pos hlg]
  · intro hp hlg
    rw [base, if_neg hp, if_neg hlg]
    exact ⟨rfl, rfl⟩
  · intro hp
    rw [base32, if_pos hp]
  · intro hp hlg
    rw [base32, if_neg hp, if_pos hlg]
  · intro hp hlg
    rw [base32, if_neg hp, if_neg hlg]
    exact ⟨rfl, rfl⟩

/-- Witness for C3: a server advertising `AUTH PLAIN LOGIN` in both
embeddings. -/
theorem c3_witness :
    (("PLAIN" ∈ ["PLAIN", "LOGIN"] →
        loginM "u" "p" (fun s => s ++ "\n") ⟨["250 AUTH PLAIN LOGIN\r\n"], [], false, 0⟩ =
          plainBranch "u" "p" (fun s => s ++ "\n")
            ⟨[], [(false, "EHLO 127.0.0.1\r\n")], false, 0⟩) ∧
     ("PLAIN" ∉ ["PLAIN", "LOGIN"] → "LOGIN" ∈ ["PLAIN", "LOGIN"] →
        loginM "u" "p" (fun s => s ++ "\n") ⟨["250 AUTH PLAIN LOGIN\r\n"], [], false, 0⟩ =
          loginBranch "u" "p" (fun s => s ++ "\n")
            ⟨[], [(false, "EHLO 127.0.0.1\r\n")], false, 0⟩) ∧
     ("PLAIN" ∉ ["PLAIN", "LOGIN"] → "LOGIN" ∉ ["PLAIN", "LOGIN"] →
        loginM "u" "p" (fun s => s ++ "\n") ⟨["250 AUTH PLAIN LOGIN\r\n"], [], false, 0⟩ =
          (⟨[], [(false, "EHLO 127.0.0.1\r\n")], false, 0⟩,
           .error (.unsupportedAuth ["PLAIN", "LOGIN"])) ∧
        errMsg (.unsupportedAuth ["PLAIN", "LOGIN"]) =
          "Auth methods not supported: " ++ joinSep ", " ["PLAIN", "LOGIN"])) ∧
    (("PLAIN" ∈ ["PLAIN", "LOGIN"] →
        login32M "u" "p" (fun s => s ++ "\n") ⟨("250 AUTH PLAIN LOGIN\r\n").data, [], false, 0⟩ =
          plainBranch32 "u" "p" (fun s => s ++ "\n")
            ⟨[], [(false, "EHLO 127.0.0.1\r\n")], false, 0⟩) ∧
     ("PLAIN" ∉ ["PLAIN", "LOGIN"] → "LOGIN" ∈ ["PLAIN", "LOGIN"] →
        login32M "u" "p" (fun s => s ++ "\n") ⟨("250 AUTH PLAIN LOGIN\r\n").data, [], false, 0⟩ =
          loginBranch32 "u" "p" (fun s => s ++ "\n")
            ⟨[], [(false, "EHLO 127.0.0.1\r\n")], false, 0⟩) ∧
     ("PLAIN" ∉ ["PLAIN", "LOGIN"] → "LOGIN" ∉ ["PLAIN", "LOGIN"] →
        login32M "u" "p" (fun s => s ++ "\n") ⟨("250 AUTH PLAIN LOGIN\r\n").data, [], false, 0⟩ =
          (⟨[], [(false, "EHLO 127.0.0.1\r\n")], false, 0⟩,
           .error (.unsupportedAuth ["PLAIN", "LOGIN"])) ∧
        errMsg (.unsupportedAuth ["PLAIN", "LOGIN"]) =
          "Auth methods not supported: " ++ joinSep ", " ["PLAIN", "LOGIN"])) :=
  c3_auth_selection "u" "p" (fun s => s ++ "\n")
    ⟨["250 AUTH PLAIN LOGIN\r\n"], [], false, 0⟩
    ⟨[], [(false, "EHLO 127.0.0.1\r\n")], false, 0⟩
    ["AUTH PLAIN LOGIN"] ["PLAIN", "LOGIN"] rfl rfl (by decide)
    ⟨("250 AUTH PLAIN LOGIN\r\n").data, [], false, 0⟩
    ⟨[], [(false, "EHLO 127.0.0.1\r\n")], false, 0⟩
    ["AUTH PLAIN LOGIN"] ["PLAIN", "LOGIN"] rfl rfl (by decide)

/-! ### Claim C5 -/

/-- The command primitive itself never raises the all-recipients-refused
condition: its errors are only the no-response and malformed-line ones. -/
theorem readReply_error_not_allRefused (s : String) :
    ∀ (inp rem : List String) (e : SmtpErr), readReply s inp = (rem, .error e) →
      ∀ (cd : Int) (rs : List String), e ≠ .allRefused cd rs := by
  intro inp
  induction inp with
  | nil =>
    intro rem e h cd rs
    simp only [readReply, Prod.mk.injEq, Except.error.injEq] at h
    rw [← h.2]
    simp
  | cons l rest ih =>
    intro rem e h cd rs
    simp only [readReply] at h
    split at h
    · simp only [Prod.mk.injEq, Except.error.injEq] at h
      rw [← h.2]
      simp
    · split at h
      · simp only [Prod.mk.injEq, Except.error.injEq] at h
        rw [← h.2]
        simp
      · split at h
        · simp at h
        · rcases h2 : readReply s rest with ⟨rem2, r2⟩
          rw [h2] at h
          rcases r2 with e2 | ok2
          · simp only [Prod.mk.injEq, Except.error.injEq] at h
            rw [← h.2]
            exact ih rem2 e2 h2 cd rs
          · simp at h

/-- C5: an attempt of `to` in which the sender was accepted and the RCPT
phase completed with at least one refusal but fewer refusals than
recipients does not raise the all-recipients-refused condition and
proceeds to send `DATA`. -/
theorem c5_mixed_recipients (mf : String) (addrs0 : Sum String (List String))
    (c c1 c2 : Conn) (resp0 : List String) (cnt : Nat) (code : Int) (resp : List String)
    (hm : cmdM ("MAIL FROM: <" ++ mf ++ ">") c = (c1, .ok (250, resp0)))
    (hr : rcptLoop (pyListify addrs0) c1 0 250 resp0 = (c2, .ok (cnt, code, resp)))
    (_href : 1 ≤ cnt) (hacc : cnt < (pyListify addrs0).length) :
    toAttempt mf addrs0 c = ((cmdM "DATA" c2).1, dataCheck (cmdM "DATA" c2).2) ∧
    (toAttempt mf addrs0 c).1.out = c2.out ++ [(c2.secured, "DATA" ++ crlf)] ∧
    (∀ (cd : Int) (rs : List String), (toAttempt mf addrs0 c).2 ≠ .error (.allRefused cd rs)) := by
  have hne : cnt ≠ (pyListify addrs0).length := by omega
  have heq : toAttempt mf addrs0 c = ((cmdM "DATA" c2).1, dataCheck (cmdM "DATA" c2).2) := by
    unfold toAttempt
    rw [hm]
    simp only [ne_eq, not_true_eq_false, if_false, ite_false, reduceIte]
    rw [hr]
    simp only [hne, if_false, ite_false, reduceIte]
  refine ⟨heq, ?_, ?_⟩
  · rw [heq]
    exact cmdM_out "DATA" c2
  · intro cd rs hcontra
    rw [heq] at hcontra
    simp only at hcontra
    rcases h2 : (cmdM "DATA" c2).2 with e | ⟨cdd, rss⟩
    · rw [h2] at hcontra
      simp only [dataCheck, Except.error.injEq] at hcontra
      have hsnd : (readReply "DATA" c2.inp).2 = .error e := by
        have hx := congrArg Prod.snd (cmdM_eq "DATA" c2)
        simp only at hx
        rw [← hx]
        exact h2
      have hsrc : readReply "DATA" c2.inp = ((readReply "DATA" c2.inp).1, .error e) :=
        Prod.ext rfl hsnd
      exact readReply_error_not_allRefused "DATA" c2.inp (readReply "DATA" c2.inp).1 e hsrc cd rs
        (by rw [hcontra])
    · rw [h2] at hcontra
      simp only [dataCheck] at hcontra
      split at hcontra
      · simp at hcontra
      · simp at hcontra

/-- Witness for C5: two recipients, the first refused with 550, the
second accepted, then DATA accepted with 354. -/
theorem c5_witness :
    toAttempt "u" (.inr ["a", "b"])
        ⟨["250 s\r\n", "550 no\r\n", "250 ok\r\n", "354 go\r\n"], [], false, 0⟩ =
      ((cmdM "DATA" ⟨["354 go\r\n"],
          [(false, "MAIL FROM: <u>\r\n"), (false, "RCPT TO: <a>\r\n"),
           (false, "RCPT TO: <b>\r\n")], false, 0⟩).1,
       dataCheck (cmdM "DATA" ⟨["354 go\r\n"],
          [(false, "MAIL FROM: <u>\r\n"), (false, "RCPT TO: <a>\r\n"),
           (false, "RCPT TO: <b>\r\n")], false, 0⟩).2) ∧
    (toAttempt "u" (.inr ["a", "b"])
        ⟨["250 s\r\n", "550 no\r\n", "250 ok\r\n", "354 go\r\n"], [], false, 0⟩).1.out =
      [(false, "MAIL FROM: <u>\r\n"), (false, "RCPT TO: <a>\r\n"),
       (false, "RCPT TO: <b>\r\n")] ++ [(false, "DATA" ++ crlf)] ∧
    (∀ (cd : Int) (rs : List String),
      (toAttempt "u" (.inr ["a", "b"])
          ⟨["250 s\r\n", "550 no\r\n", "250 ok\r\n", "354 go\r\n"], [], false, 0⟩).2 ≠
        .error (.allRefused cd rs)) :=
  c5_mixed_recipients "u" (.inr ["a", "b"])
    ⟨["250 s\r\n", "550 no\r\n", "250 ok\r\n", "354 go\r\n"], [], false, 0⟩
    ⟨["550 no\r\n", "250 ok\r\n", "354 go\r\n"], [(false, "MAIL FROM: <u>\r\n")], false, 0⟩
    ⟨["354 go\r\n"],
      [(false, "MAIL FROM: <u>\r\n"), (false, "RCPT TO: <a>\r\n"),
       (false, "RCPT TO: <b>\r\n")], false, 0⟩
    ["s"] 1 250 ["ok"] rfl rfl (by decide) (by decide)

/-! ### Claim C2 -/

/-- C2 fails for umailesp32.py: on a server whose EHLO feature line is
`STARTTLS`, its bootstrap sends STARTTLS, accepts 220 and upgrades the
stream, but completes with only one EHLO ever written — it does not
re-send EHLO after the upgrade.  (The stray `X` byte in the scripted
stream is the byte that parser's continuation peek consumes.) -/
theorem c2_counterexample :
    init32M false none none (fun s => s ++ "\n")
        ⟨("220 hi\r\n250 STARTTLS\r\nX220 ok\r\n").data, [], false, 0⟩ =
      (⟨[], [(false, "EHLO 127.0.0.1\r\n"), (false, "STARTTLS\r\n")], true, 0⟩, .ok ()) ∧
    (([(false, "EHLO 127.0.0.1\r\n"), (false, "STARTTLS\r\n")] : List (Bool × String)).filter
        (fun pr => pyTake pr.2 4 == "EHLO")).length = 1 :=
  ⟨rfl, rfl⟩

/-- C2 (amended): in umailesp.py the claim holds as stated — without
direct security, when a feature line equals `STARTTLS`, the constructor
sends STARTTLS over the plain stream, aborts on any raised failure or any
status other than 220, otherwise upgrades the stream in place (all later
writes carry the secured tag) and re-sends EHLO over the secured stream,
aborting unless it returns 250.  umailesp32.py sends STARTTLS, requires
220 and upgrades in place, but does not re-send EHLO. -/
theorem c2_starttls (u p p32 : Option String) (b64 : String → String)
    (c0 c2 : Conn) (g : String) (rest : List String) (L : List String)
    (hinp : c0.inp = g :: rest)
    (hg : pyInt? (pyTake (rstripCRLF g) 3) = some 220)
    (he : cmdM ehloStr { c0 with inp := rest } = (c2, .ok (250, L)))
    (hst : "STARTTLS" ∈ L)
    (c32 d2 d3 : Conn32) (L32 R2 : List String)
    (hg32 : pyInt? ⟨c32.inp.take 3⟩ = some 220)
    (he32 : cmd32M ehloStr { c32 with inp := (readline32 (c32.inp.drop 3)).2 } =
      (d2, .ok (250, L32)))
    (hst32 : "STARTTLS" ∈ L32)
    (hp32 : cmd32M "STARTTLS" d2 = (d3, .ok (220, R2))) :
    ((cmdM "STARTTLS" c2).1.out = c2.out ++ [(c2.secured, "STARTTLS" ++ crlf)] ∧
     (∀ e, (cmdM "STARTTLS" c2).2 = .error e →
        initM false u p b64 c0 = ((cmdM "STARTTLS" c2).1, .error e)) ∧
     (∀ (code2 : Int) (resp2 : List String),
        (cmdM "STARTTLS" c2).2 = .ok (code2, resp2) → code2 ≠ 220 →
        initM false u p b64 c0 =
          ((cmdM "STARTTLS" c2).1, .error (.starttlsFailed code2 resp2))) ∧
     (∀ resp2, (cmdM "STARTTLS" c2).2 = .ok (220, resp2) →
        (cmdM ehloStr { (cmdM "STARTTLS" c2).1 with secured := true }).1.out =
          (cmdM "STARTTLS" c2).1.out ++ [(true, ehloStr ++ crlf)] ∧
        (∀ e, (cmdM ehloStr { (cmdM "STARTTLS" c2).1 with secured := true }).2 = .error e →
           initM false u p b64 c0 =
             ((cmdM ehloStr { (cmdM "STARTTLS" c2).1 with secured := true }).1, .error e)) ∧
        (∀ (code3 : Int) (resp3 : List String),
           (cmdM ehloStr { (cmdM "STARTTLS" c2).1 with secured := true }).2 =
             .ok (code3, resp3) → code3 ≠ 250 →
           initM false u p b64 c0 =
             ((cmdM ehloStr { (cmdM "STARTTLS" c2).1 with secured := true }).1,
              .error (.ehloAgainFailed code3 resp3))) ∧
        (∀ resp3,
           (cmdM ehloStr { (cmdM "STARTTLS" c2).1 with secured := true }).2 = .ok (250, resp3) →
           initM false u p b64 c0 =
             initFinish u p b64
               (cmdM ehloStr { (cmdM "STARTTLS" c2).1 with secured := true }).1 ∧
           (cmdM ehloStr { (cmdM "STARTTLS" c2).1 with secured := true }).1.secured = true))) ∧
    (init32M false none p32 b64 c32 = ({ d3 with secured := true }, .ok ()) ∧
     d3.out = d2.out ++ [(d2.secured, "STARTTLS" ++ crlf)]) := by
  have hred : initM false u p b64 c0 =
      (match cmdM "STARTTLS" c2 with
       | (c, .error e) => (c, .error e)
       | (c, .ok (code2, resp2)) =>
         if code2 ≠ 220 then (c, .error (.starttlsFailed code2 resp2))
         else
           match cmdM ehloStr { c with secured := true } with
           | (c, .error e) => (c, .error e)
           | (c, .ok (code3, resp3)) =>
             if code3 ≠ 250 then (c, .error (.ehloAgainFailed code3 resp3))
             else initFinish u p b64 c) := by
    unfold initM
    simp only [Bool.false_eq_true, if_false, reduceIte]
    rw [hinp]
    simp only [hg, he, hst]
    simp [hst]
  refine ⟨⟨cmdM_out "STARTTLS" c2, ?_, ?_, ?_⟩, ?_, ?_⟩
  · intro e hpe
    have hq : cmdM "STARTTLS" c2 = ((cmdM "STARTTLS" c2).1, .error e) := Prod.ext rfl hpe
    rw [hred, hq]
  · intro code2 resp2 hpe hne
    have hq : cmdM "STARTTLS" c2 = ((cmdM "STARTTLS" c2).1, .ok (code2, resp2)) :=
      Prod.ext rfl hpe
    rw [hred, hq]
    simp only []
    rw [if_pos hne]
  · intro resp2 hpe
    have hq : cmdM "STARTTLS" c2 = ((cmdM "STARTTLS" c2).1, .ok (220, resp2)) :=
      Prod.ext rfl hpe
    have hred2 : initM false u p b64 c0 =
        (match cmdM ehloStr { (cmdM "STARTTLS" c2).1 with secured := true } with
         | (c, .error e) => (c, .error e)
         | (c, .ok (code3, resp3)) =>
           if code3 ≠ 250 then (c, .error (.ehloAgainFailed code3 resp3))
           else initFinish u p b64 c) := by
      rw [hred]
      conv_lhs => rw [hq]
      simp
    refine ⟨?_, ?_, ?_, ?_⟩
    · have := cmdM_out ehloStr { (cmdM "STARTTLS" c2).1 with secured := true }
      simpa using this
    · intro e hqe
      have hqq : cmdM ehloStr { (cmdM "STARTTLS" c2).1 with secured := true } =
          ((cmdM ehloStr { (cmdM "STARTTLS" c2).1 with secured := true }).1, .error e) :=
        Prod.ext rfl hqe
      rw [hred2, hqq]
    · intro code3 resp3 hqe hne3
      have hqq : cmdM ehloStr { (cmdM "STARTTLS" c2).1 with secured := true } =
          ((cmdM ehloStr { (cmdM "STARTTLS" c2).1 with secured := true }).1,
           .ok (code3, resp3)) :=
        Prod.ext rfl hqe
      rw [hred2, hqq]
      simp only []
      rw [if_pos hne3]
    · intro resp3 hqe
      have hqq : cmdM ehloStr { (cmdM "STARTTLS" c2).1 with secured := true } =
          ((cmdM ehloStr { (cmdM "STARTTLS" c2).1 with secured := true }).1,
           .ok (250, resp3)) :=
        Prod.ext rfl hqe
      constructor
      · rw [hred2]
        conv_lhs => rw [hqq]
        simp
      · have := cmdM_secured ehloStr { (cmdM "STARTTLS" c2).1 with secured := true }
        simpa using this
  · unfold init32M
    simp only [read32, Bool.false_eq_true, if_false, reduceIte]
    simp only [hg32]
    rcases hrl : readline32 (c32.inp.drop 3) with ⟨l1, i2⟩
    simp only []
    have he32x : cmd32M ehloStr { c32 with inp := i2 } = (d2, .ok (250, L32)) := by
      rw [← he32, hrl]
    simp only [he32x, hst32, hp32]
    simp [hst32, initFinish32, pyTruthy]
  · have := cmd32M_out "STARTTLS" d2
    rw [hp32] at this
    exact this

/-- Witness for C2: a concrete STARTTLS bootstrap in both embeddings. -/
theorem c2_witness :
    ((cmdM "STARTTLS" (⟨["220 go\r\n", "250 ok\r\n"], [(false, "EHLO 127.0.0.1\r\n")], false, 0⟩ : Conn)).1.out = (⟨["220 go\r\n", "250 ok\r\n"], [(false, "EHLO 127.0.0.1\r\n")], false, 0⟩ : Conn).out ++ [((⟨["220 go\r\n", "250 ok\r\n"], [(false, "EHLO 127.0.0.1\r\n")], false, 0⟩ : Conn).secured, "STARTTLS" ++ crlf)] ∧
     (∀ e, (cmdM "STARTTLS" (⟨["220 go\r\n", "250 ok\r\n"], [(false, "EHLO 127.0.0.1\r\n")], false, 0⟩ : Conn)).2 = .error e →
        initM false none none (fun s => s ++ "\n") (⟨["220 hi\r\n", "250 STARTTLS\r\n", "220 go\r\n", "250 ok\r\n"], [], false, 0⟩ : Conn) = ((cmdM "STARTTLS" (⟨["220 go\r\n", "250 ok\r\n"], [(false, "EHLO 127.0.0.1\r\n")], false, 0⟩ : Conn)).1, .error e)) ∧
     (∀ (code2 : Int) (resp2 : List String),
        (cmdM "STARTTLS" (⟨["220 go\r\n", "250 ok\r\n"], [(false, "EHLO 127.0.0.1\r\n")], false, 0⟩ : Conn)).2 = .ok (code2, resp2) → code2 ≠ 220 →
        initM false none none (fun s => s ++ "\n") (⟨["220 hi\r\n", "250 STARTTLS\r\n", "220 go\r\n", "250 ok\r\n"], [], false, 0⟩ : Conn) = ((cmdM "STARTTLS" (⟨["220 go\r\n", "250 ok\r\n"], [(false, "EHLO 127.0.0.1\r\n")], false, 0⟩ : Conn)).1, .error (.starttlsFailed code2 resp2))) ∧
     (∀ resp2, (cmdM "STARTTLS" (⟨["220 go\r\n", "250 ok\r\n"], [(false, "EHLO 127.0.0.1\r\n")], false, 0⟩ : Conn)).2 = .ok (220, resp2) →
        (cmdM ehloStr { (cmdM "STARTTLS" (⟨["220 go\r\n", "250 ok\r\n"], [(false, "EHLO 127.0.0.1\r\n")], false, 0⟩ : Conn)).1 with secured := true }).1.out = (cmdM "STARTTLS" (⟨["220 go\r\n", "250 ok\r\n"], [(false, "EHLO 127.0.0.1\r\n")], false, 0⟩ : Conn)).1.out ++ [(true, ehloStr ++ crlf)] ∧
        (∀ e, (cmdM ehloStr { (cmdM "STARTTLS" (⟨["220 go\r\n", "250 ok\r\n"], [(false, "EHLO 127.0.0.1\r\n")], false, 0⟩ : Conn)).1 with secured := true }).2 = .error e →
           initM false none none (fun s => s ++ "\n") (⟨["220 hi\r\n", "250 STARTTLS\r\n", "220 go\r\n", "250 ok\r\n"], [], false, 0⟩ : Conn) = ((cmdM ehloStr { (cmdM "STARTTLS" (⟨["220 go\r\n", "250 ok\r\n"], [(false, "EHLO 127.0.0.1\r\n")], false, 0⟩ : Conn)).1 with secured := true }).1, .error e)) ∧
        (∀ (code3 : Int) (resp3 : List String),
           (cmdM ehloStr { (cmdM "STARTTLS" (⟨["220 go\r\n", "250 ok\r\n"], [(false, "EHLO 127.0.0.1\r\n")], false, 0⟩ : Conn)).1 with secured := true }).2 = .ok (code3, resp3) → code3 ≠ 250 →
           initM false none none (fun s => s ++ "\n") (⟨["220 hi\r\n", "250 STARTTLS\r\n", "220 go\r\n", "250 ok\r\n"], [], false, 0⟩ : Conn) = ((cmdM ehloStr { (cmdM "STARTTLS" (⟨["220 go\r\n", "250 ok\r\n"], [(false, "EHLO 127.0.0.1\r\n")], false, 0⟩ : Conn)).1 with secured := true }).1, .error (.ehloAgainFailed code3 resp3))) ∧
        (∀ resp3, (cmdM ehloStr { (cmdM "STARTTLS" (⟨["220 go\r\n", "250 ok\r\n"], [(false, "EHLO 127.0.0.1\r\n")], false, 0⟩ : Conn)).1 with secured := true }).2 = .ok (250, resp3) →
           initM false none none (fun s => s ++ "\n") (⟨["220 hi\r\n", "250 STARTTLS\r\n", "220 go\r\n", "250 ok\r\n"], [], false, 0⟩ : Conn) = initFinish none none (fun s => s ++ "\n") (cmdM ehloStr { (cmdM "STARTTLS" (⟨["220 go\r\n", "250 ok\r\n"], [(false, "EHLO 127.0.0.1\r\n")], false, 0⟩ : Conn)).1 with secured := true }).1 ∧
           (cmdM ehloStr { (cmdM "STARTTLS" (⟨["220 go\r\n", "250 ok\r\n"], [(false, "EHLO 127.0.0.1\r\n")], false, 0⟩ : Conn)).1 with secured := true }).1.secured = true))) ∧
    (init32M false none none (fun s => s ++ "\n") (⟨("220 hi\r\n250 STARTTLS\r\nX220 ok\r\n").data, [], false, 0⟩ : Conn32) = ({ (⟨[], [(false, "EHLO 127.0.0.1\r\n"), (false, "STARTTLS\r\n")], false, 0⟩ : Conn32) with secured := true }, .ok ()) ∧
     (⟨[], [(false, "EHLO 127.0.0.1\r\n"), (false, "STARTTLS\r\n")], false, 0⟩ : Conn32).out = (⟨("220 ok\r\n").data, [(false, "EHLO 127.0.0.1\r\n")], false, 0⟩ : Conn32).out ++ [((⟨("220 ok\r\n").data, [(false, "EHLO 127.0.0.1\r\n")], false, 0⟩ : Conn32).secured, "STARTTLS" ++ crlf)]) :=
  c2_starttls none none none (fun s => s ++ "\n")
    (⟨["220 hi\r\n", "250 STARTTLS\r\n", "220 go\r\n", "250 ok\r\n"], [], false, 0⟩ : Conn) (⟨["220 go\r\n", "250 ok\r\n"], [(false, "EHLO 127.0.0.1\r\n")], false, 0⟩ : Conn)
    "220 hi\r\n" ["250 STARTTLS\r\n", "220 go\r\n", "250 ok\r\n"] ["STARTTLS"]
    rfl (by decide) rfl (by decide)
    (⟨("220 hi\r\n250 STARTTLS\r\nX220 ok\r\n").data, [], false, 0⟩ : Conn32) (⟨("220 ok\r\n").data, [(false, "EHLO 127.0.0.1\r\n")], false, 0⟩ : Conn32) (⟨[], [(false, "EHLO 127.0.0.1\r\n"), (false, "STARTTLS\r\n")], false, 0⟩ : Conn32)
    ["STARTTLS"] ["ok"] (by decide) rfl (by decide) rfl

/-! ### Claim C4 -/

/-- State transformer of one `to` attempt (umailesp.py). -/
def toStep (mf : String) (addrs : Sum String (List String)) (c : Conn) : Conn :=
  (toAttempt mf addrs c).1

/-- State transformer of one `to` attempt (umailesp32.py). -/
def toStep32 (mf : String) (addrs : Sum String (List String)) (c : Conn32) : Conn32 :=
  (toAttempt32 mf addrs c).1

/-- When every attempt raises, the retry loop runs all `n` attempts,
threading the stream state through each, and propagates the error of the
last attempt unmodified. -/
theorem toLoop_allFail (mf : String) (addrs : Sum String (List String)) :
    ∀ (n : Nat) (c : Conn), 1 ≤ n →
      (∀ k, k < n → ∃ e, (toAttempt mf addrs ((toStep mf addrs)^[k] c)).2 = .error e) →
      ∃ e, toLoop mf addrs n c = ((toStep mf addrs)^[n] c, .error e) ∧
        (toAttempt mf addrs ((toStep mf addrs)^[n - 1] c)).2 = .error e := by
  intro n
  induction n with
  | zero => intro c h; omega
  | succ m ih =>
    intro c h1 hfail
    obtain ⟨e0, he0⟩ := hfail 0 (by omega)
    rw [Function.iterate_zero_apply] at he0
    have hq : toAttempt mf addrs c = ((toAttempt mf addrs c).1, .error e0) :=
      Prod.ext rfl he0
    rcases Nat.eq_zero_or_pos m with hm | hm
    · subst hm
      refine ⟨e0, ?_, by simpa using he0⟩
      show toLoop mf addrs (Nat.succ 0) c = _
      unfold toLoop
      rw [hq]
      simp [toStep]
    · have hfail2 : ∀ k, k < m →
          ∃ e, (toAttempt mf addrs ((toStep mf addrs)^[k] (toStep mf addrs c))).2 = .error e := by
        intro k hk
        have := hfail (k + 1) (by omega)
        rwa [Function.iterate_succ_apply] at this
      obtain ⟨e, hloop, hlast⟩ := ih (toStep mf addrs c) hm hfail2
      refine ⟨e, ?_, ?_⟩
      · show toLoop mf addrs (Nat.succ m) c = _
        unfold toLoop
        rw [hq]
        simp only []
        rw [if_neg (by omega)]
        rw [show (toAttempt mf addrs c).1 = toStep mf addrs c from rfl, hloop,
          ← Function.iterate_succ_apply]
      · have hms : Nat.succ (m - 1) = m := by omega
        rw [← Function.iterate_succ_apply, hms] at hlast
        have hms2 : m + 1 - 1 = m := by omega
        rw [hms2]
        exact hlast

theorem pyTake_append_left (s t : String) (n : Nat) (h : n ≤ s.data.length) :
    pyTake (s ++ t) n = pyTake s n := by
  unfold pyTake
  show String.mk ((s.data ++ t.data).take n) = _
  rw [List.take_append_of_le_length h]

/-- The trace entry of a `MAIL FROM` command is counted by `countMF`. -/
theorem isMF_mailfrom (mf : String) :
    (pyTake (("MAIL FROM: <" ++ mf ++ ">") ++ crlf) 10 == "MAIL FROM:") = true := by
  have h1 : pyTake (("MAIL FROM: <" ++ mf ++ ">") ++ crlf) 10
      = pyTake (("MAIL FROM: <" ++ mf) ++ ">") 10 := by
    apply pyTake_append_left
    show 10 ≤ (("MAIL FROM: <" ++ mf).data ++ ">".data).length
    simp only [List.length_append]
    have : ("MAIL FROM: <" ++ mf).data = "MAIL FROM: <".data ++ mf.data := rfl
    rw [this]
    simp only [List.length_append]
    simp only [show ("MAIL FROM: <").data.length = 12 from rfl]
    omega
  have h2 : pyTake (("MAIL FROM: <" ++ mf) ++ ">") 10 = pyTake ("MAIL FROM: <" ++ mf) 10 := by
    apply pyTake_append_left
    show 10 ≤ ("MAIL FROM: <".data ++ mf.data).length
    simp only [List.length_append]
    simp only [show ("MAIL FROM: <").data.length = 12 from rfl]
    omega
  have h3 : pyTake ("MAIL FROM: <" ++ mf) 10 = pyTake "MAIL FROM: <" 10 :=
    pyTake_append_left "MAIL FROM: <" mf 10 (by
      simp only [show ("MAIL FROM: <").data.length = 12 from rfl]
      omega)
  rw [h1, h2, h3]
  rfl

/-- The trace entry of an `RCPT TO` command is not counted by `countMF`. -/
theorem isMF_rcpt (a : String) :
    (pyTake (("RCPT TO: <" ++ a ++ ">") ++ crlf) 10 == "MAIL FROM:") = false := by
  have h1 : pyTake (("RCPT TO: <" ++ a ++ ">") ++ crlf) 10
      = pyTake (("RCPT TO: <" ++ a) ++ ">") 10 := by
    apply pyTake_append_left
    show 10 ≤ (("RCPT TO: <" ++ a).data ++ ">".data).length
    simp only [List.length_append]
    have : ("RCPT TO: <" ++ a).data = "RCPT TO: <".data ++ a.data := rfl
    rw [this]
    simp only [List.length_append]
    simp only [show ("RCPT TO: <").data.length = 10 from rfl]
    omega
  have h2 : pyTake (("RCPT TO: <" ++ a) ++ ">") 10 = pyTake ("RCPT TO: <" ++ a) 10 := by
    apply pyTake_append_left
    show 10 ≤ ("RCPT TO: <".data ++ a.data).length
    simp only [List.length_append]
    simp only [show ("RCPT TO: <").data.length = 10 from rfl]
    omega
  have h3 : pyTake ("RCPT TO: <" ++ a) 10 = pyTake "RCPT TO: <" 10 :=
    pyTake_append_left "RCPT TO: <" a 10 (by
      simp only [show ("RCPT TO: <").data.length = 10 from rfl]
      omega)
  rw [h1, h2, h3]
  rfl

theorem countMF_append_one (o : List (Bool × String)) (b : Bool) (s : String) :
    countMF (o ++ [(b, s)]) =
      countMF o + (if pyTake s 10 == "MAIL FROM:" then 1 else 0) := by
  unfold countMF
  rw [List.filter_append, List.length_append]
  simp only [List.filter_cons, List.filter_nil]
  split
  · simp
  · simp

/-- The RCPT loop writes no `MAIL FROM` command. -/
theorem rcptLoop_countMF (addrs : List String) :
    ∀ (c : Conn) (count : Nat) (code : Int) (resp : List String),
      countMF ((rcptLoop addrs c count code resp).1.out) = countMF c.out := by
  induction addrs with
  | nil => intro c count code resp; rfl
  | cons a rest ih =>
    intro c count code resp
    unfold rcptLoop
    rcases hq : cmdM ("RCPT TO: <" ++ a ++ ">") c with ⟨c2, r2⟩
    have hc2 : countMF c2.out = countMF c.out := by
      have hout := cmdM_out ("RCPT TO: <" ++ a ++ ">") c
      rw [hq] at hout
      rw [hout, countMF_append_one, isMF_rcpt]
      simp
    rcases r2 with e | ⟨cd, rs⟩
    · simpa using hc2
    · simp only []
      split
      · rw [ih c2 count cd rs, hc2]
      · rw [ih c2 (count + 1) cd rs, hc2]

/-- Every attempt of `to` writes exactly one `MAIL FROM` command. -/
theorem toAttempt_countMF (mf : String) (addrs : Sum String (List String)) (c : Conn) :
    countMF ((toAttempt mf addrs c).1.out) = countMF c.out + 1 := by
  unfold toAttempt
  rcases hq : cmdM ("MAIL FROM: <" ++ mf ++ ">") c with ⟨c1, r1⟩
  have hc1 : countMF c1.out = countMF c.out + 1 := by
    have hout := cmdM_out ("MAIL FROM: <" ++ mf ++ ">") c
    rw [hq] at hout
    rw [hout, countMF_append_one, isMF_mailfrom]
    simp
  rcases r1 with e | ⟨code, resp⟩
  · simpa using hc1
  · simp only []
    split
    · simpa using hc1
    · rcases hq2 : rcptLoop (pyListify addrs) c1 0 code resp with ⟨c2, r2⟩
      have hc2 : countMF c2.out = countMF c1.out := by
        have := rcptLoop_countMF (pyListify addrs) c1 0 code resp
        rw [hq2] at this
        exact this
      rcases r2 with e2 | ⟨cnt, cd2, rs2⟩
      · simp only []
        rw [hc2, hc1]
      · simp only []
        split
        · simp only []
          rw [hc2, hc1]
        · rcases hq3 : cmdM "DATA" c2 with ⟨c3, r3⟩
          have hc3 : countMF c3.out = countMF c2.out := by
            have hout := cmdM_out "DATA" c2
            rw [hq3] at hout
            rw [hout, countMF_append_one]
            norm_num [show (pyTake ("DATA" ++ crlf) 10 == "MAIL FROM:") = false from rfl]
          simp only []
          rw [hc3, hc2, hc1]

/-- Iterating attempts adds one `MAIL FROM` per attempt. -/
theorem toStep_iterate_countMF (mf : String) (addrs : Sum String (List String)) :
    ∀ (n : Nat) (c : Conn),
      countMF (((toStep mf addrs)^[n] c).out) = countMF c.out + n := by
  intro n
  induction n with
  | zero => intro c; simp
  | succ m ih =>
    intro c
    rw [Function.iterate_succ_apply]
    rw [ih (toStep mf addrs c)]
    show countMF ((toAttempt mf addrs c).1.out) + m = countMF c.out + (m + 1)
    rw [toAttempt_countMF]
    omega

/-- When every attempt raises, the umailesp32.py retry loop runs all `n`
attempts and propagates the error of the last one unmodified. -/
theorem toLoop32_allFail (mf : String) (addrs : Sum String (List String)) :
    ∀ (n : Nat) (c : Conn32), 1 ≤ n →
      (∀ k, k < n → ∃ e, (toAttempt32 mf addrs ((toStep32 mf addrs)^[k] c)).2 = .error e) →
      ∃ e, toLoop32 mf addrs n c = ((toStep32 mf addrs)^[n] c, .error e) ∧
        (toAttempt32 mf addrs ((toStep32 mf addrs)^[n - 1] c)).2 = .error e := by
  intro n
  induction n with
  | zero => intro c h; omega
  | succ m ih =>
    intro c h1 hfail
    obtain ⟨e0, he0⟩ := hfail 0 (by omega)
    rw [Function.iterate_zero_apply] at he0
    have hq : toAttempt32 mf addrs c = ((toAttempt32 mf addrs c).1, .error e0) :=
      Prod.ext rfl he0
    rcases Nat.eq_zero_or_pos m with hm | hm
    · subst hm
      refine ⟨e0, ?_, by simpa using he0⟩
      show toLoop32 mf addrs (Nat.succ 0) c = _
      unfold toLoop32
      rw [hq]
      simp [toStep32]
    · have hfail2 : ∀ k, k < m →
          ∃ e, (toAttempt32 mf addrs ((toStep32 mf addrs)^[k] (toStep32 mf addrs c))).2 =
            .error e := by
        intro k hk
        have := hfail (k + 1) (by omega)
        rwa [Function.iterate_succ_apply] at this
      obtain ⟨e, hloop, hlast⟩ := ih (toStep32 mf addrs c) hm hfail2
      refine ⟨e, ?_, ?_⟩
      · show toLoop32 mf addrs (Nat.succ m) c = _
        unfold toLoop32
        rw [hq]
        simp only []
        rw [if_neg (by omega)]
        rw [show (toAttempt32 mf addrs c).1 = toStep32 mf addrs c from rfl, hloop,
          ← Function.iterate_succ_apply]
      · have hms : Nat.succ (m - 1) = m := by omega
        rw [← Function.iterate_succ_apply, hms] at hlast
        have hms2 : m + 1 - 1 = m := by omega
        rw [hms2]
        exact hlast

/-- The umailesp32.py RCPT loop writes no `MAIL FROM` command. -/
theorem rcptLoop32_countMF (addrs : List String) :
    ∀ (c : Conn32) (count : Nat) (code : Int) (resp : List String),
      countMF ((rcptLoop32 addrs c count code resp).1.out) = countMF c.out := by
  induction addrs with
  | nil => intro c count code resp; rfl
  | cons a rest ih =>
    intro c count code resp
    unfold rcptLoop32
    rcases hq : cmd32M ("RCPT TO: <" ++ a ++ ">") c with ⟨c2, r2⟩
    have hc2 : countMF c2.out = countMF c.out := by
      have hout := cmd32M_out ("RCPT TO: <" ++ a ++ ">") c
      rw [hq] at hout
      rw [hout, countMF_append_one, isMF_rcpt]
      simp
    rcases r2 with e | ⟨cd, rs⟩
    · simpa using hc2
    · simp only []
      split
      · rw [ih c2 count cd rs, hc2]
      · rw [ih c2 (count + 1) cd rs, hc2]

/-- Every attempt of umailesp32.py `to` writes exactly one `MAIL FROM`. -/
theorem toAttempt32_countMF (mf : String) (addrs : Sum String (List String)) (c : Conn32) :
    countMF ((toAttempt32 mf addrs c).1.out) = countMF c.out + 1 := by
  unfold toAttempt32
  rcases hq : cmd32M ("MAIL FROM: <" ++ mf ++ ">") c with ⟨c1, r1⟩
  have hc1 : countMF c1.out = countMF c.out + 1 := by
    have hout := cmd32M_out ("MAIL FROM: <" ++ mf ++ ">") c
    rw [hq] at hout
    rw [hout, countMF_append_one, isMF_mailfrom]
    simp
  rcases r1 with e | ⟨code, resp⟩
  · simpa using hc1
  · simp only []
    split
    · simpa using hc1
    · rcases hq2 : rcptLoop32 (pyListify addrs) c1 0 code resp with ⟨c2, r2⟩
      have hc2 : countMF c2.out = countMF c1.out := by
        have := rcptLoop32_countMF (pyListify addrs) c1 0 code resp
        rw [hq2] at this
        exact this
      rcases r2 with e2 | ⟨cnt, cd2, rs2⟩
      · simp only []
        rw [hc2, hc1]
      · simp only []
        split
        · simp only []
          rw [hc2, hc1]
        · rcases hq3 : cmd32M "DATA" c2 with ⟨c3, r3⟩
          have hc3 : countMF c3.out = countMF c2.out := by
            have hout := cmd32M_out "DATA" c2
            rw [hq3] at hout
            rw [hout, countMF_append_one]
            norm_num [show (pyTake ("DATA" ++ crlf) 10 == "MAIL FROM:") = false from rfl]
          simp only []
          rw [hc3, hc2, hc1]

/-- Iterating umailesp32.py attempts adds one `MAIL FROM` per attempt. -/
theorem toStep32_iterate_countMF (mf : String) (addrs : Sum String (List String)) :
    ∀ (n : Nat) (c : Conn32),
      countMF (((toStep32 mf addrs)^[n] c).out) = countMF c.out + n := by
  intro n
  induction n with
  | zero => intro c; simp
  | succ m ih =>
    intro c
    rw [Function.iterate_succ_apply]
    rw [ih (toStep32 mf addrs c)]
    show countMF ((toAttempt32 mf addrs c).1.out) + m = countMF c.out + (m + 1)
    rw [toAttempt32_countMF]
    omega

/-- C4: in both files, a call `to(addrs, mail_from, retries)` with
`retries ≥ 1` in which every attempt raises runs exactly `retries`
attempts (so the failing attempt is retried exactly `retries - 1` times),
threads the stream state from each attempt into the next, re-issues
exactly one `MAIL FROM` per attempt, and on the final attempt propagates
that attempt's exception to the caller unmodified. -/
theorem c4_retry_exhaustion (addrs : Sum String (List String))
    (mailFrom uname : Option String) (retries : Int) (hr : 1 ≤ retries)
    (c : Conn)
    (hfail : ∀ k, k < retries.toNat →
      ∃ e, (toAttempt (resolveMF mailFrom uname) addrs
        ((toStep (resolveMF mailFrom uname) addrs)^[k] c)).2 = .error e)
    (c32 : Conn32)
    (hfail32 : ∀ k, k < retries.toNat →
      ∃ e, (toAttempt32 (resolveMF mailFrom uname) addrs
        ((toStep32 (resolveMF mailFrom uname) addrs)^[k] c32)).2 = .error e) :
    (∃ e, toM addrs mailFrom retries uname c =
        ((toStep (resolveMF mailFrom uname) addrs)^[retries.toNat] c, .error e) ∧
      (toAttempt (resolveMF mailFrom uname) addrs
        ((toStep (resolveMF mailFrom uname) addrs)^[retries.toNat - 1] c)).2 = .error e) ∧
    countMF (((toStep (resolveMF mailFrom uname) addrs)^[retries.toNat] c).out) =
      countMF c.out + retries.toNat ∧
    (∃ e, to32M addrs mailFrom retries uname c32 =
        ((toStep32 (resolveMF mailFrom uname) addrs)^[retries.toNat] c32, .error e) ∧
      (toAttempt32 (resolveMF mailFrom uname) addrs
        ((toStep32 (resolveMF mailFrom uname) addrs)^[retries.toNat - 1] c32)).2 = .error e) ∧
    countMF (((toStep32 (resolveMF mailFrom uname) addrs)^[retries.toNat] c32).out) =
      countMF c32.out + retries.toNat := by
  have h1 : 1 ≤ retries.toNat := by omega
  exact ⟨toLoop_allFail (resolveMF mailFrom uname) addrs retries.toNat c h1 hfail,
    toStep_iterate_countMF (resolveMF mailFrom uname) addrs retries.toNat c,
    toLoop32_allFail (resolveMF mailFrom uname) addrs retries.toNat c32 h1 hfail32,
    toStep32_iterate_countMF (resolveMF mailFrom uname) addrs retries.toNat c32⟩

/-- Witness for C4: an exhausted (closed) stream makes every attempt fail;
`retries = 2`. -/
theorem c4_witness :
    (∃ e, toM (.inr ["a@b"]) (some "u") 2 none ⟨[], [], false, 0⟩ =
        ((toStep (resolveMF (some "u") none) (.inr ["a@b"]))^[(2 : Int).toNat]
           ⟨[], [], false, 0⟩, .error e) ∧
      (toAttempt (resolveMF (some "u") none) (.inr ["a@b"])
        ((toStep (resolveMF (some "u") none) (.inr ["a@b"]))^[(2 : Int).toNat - 1]
           ⟨[], [], false, 0⟩)).2 = .error e) ∧
    countMF (((toStep (resolveMF (some "u") none) (.inr ["a@b"]))^[(2 : Int).toNat]
        (⟨[], [], false, 0⟩ : Conn)).out) =
      countMF (⟨[], [], false, 0⟩ : Conn).out + (2 : Int).toNat ∧
    (∃ e, to32M (.inr ["a@b"]) (some "u") 2 none ⟨[], [], false, 0⟩ =
        ((toStep32 (resolveMF (some "u") none) (.inr ["a@b"]))^[(2 : Int).toNat]
           ⟨[], [], false, 0⟩, .error e) ∧
      (toAttempt32 (resolveMF (some "u") none) (.inr ["a@b"])
        ((toStep32 (resolveMF (some "u") none) (.inr ["a@b"]))^[(2 : Int).toNat - 1]
           ⟨[], [], false, 0⟩)).2 = .error e) ∧
    countMF (((toStep32 (resolveMF (some "u") none) (.inr ["a@b"]))^[(2 : Int).toNat]
        (⟨[], [], false, 0⟩ : Conn32)).out) =
      countMF (⟨[], [], false, 0⟩ : Conn32).out + (2 : Int).toNat :=
  c4_retry_exhaustion (.inr ["a@b"]) (some "u") none 2 (by decide) ⟨[], [], false, 0⟩
    (by
      intro k hk
      match k with
      | 0 => exact ⟨.noResponse "MAIL FROM: <u>", rfl⟩
      | 1 => exact ⟨.noResponse "MAIL FROM: <u>", rfl⟩
      | n + 2 => exact absurd hk (by omega))
    ⟨[], [], false, 0⟩
    (by
      intro k hk
      match k with
      | 0 => exact ⟨.noSmtpResponse, rfl⟩
      | 1 => exact ⟨.noSmtpResponse, rfl⟩
      | n + 2 => exact absurd hk (by omega))

end Umail
